import Mathlib

/-!
# PM8018 core driver (`drivers/mfd/pm8018-core.c`)

A shallow embedding of the PMIC 8018 core driver: the revision probe, the
sub-device registration sequence of `pm8018_add_subdevices`, bring-up in
`pm8018_probe` and teardown in `pm8018_remove`.

Conventions of the embedding.

* Pointers are values: a nullable pointer to a structure is an `Option`, the
  interrupt-chip pointer (which may also be an `ERR_PTR`) is the signed machine
  word it holds, as an `Int`, with `0` for `NULL`.
* The kernel services the driver calls (`msm_ssbi_read`, `pm8xxx_irq_init`,
  `mfd_add_devices`, `kzalloc`) answer through a `Host` record: one answer per
  call site, which is general because every site runs at most once per call of
  the driver function.
* Every call the driver makes into the kernel is appended to a trace of
  `Event`s, in program order.
* A read through a null pointer or outside an array has no defined result; the
  embedding returns `none` for such a run.
* Constants of headers that are not part of the sources are the fields of `Hdr`.
-/

namespace PM8018

/-! ## Header constants -/

/-- Constants, macros and sizes that the driver takes from kernel headers
(`linux/err.h`, `linux/mfd/pm8xxx/core.h`, `linux/mfd/pm8xxx/pm8018.h`, ...).
The headers are not among the sources, so every such value is a parameter. -/
structure Hdr where
  ENODEV : Nat
  ENOMEM : Nat
  EINVAL : Nat
  MAX_ERRNO : Nat
  PM8XXX_VERSION_8018 : Nat
  PM8XXX_REVISION_8018_TEST : Nat
  PM8XXX_REVISION_8018_1p0 : Nat
  PM8XXX_REVISION_8018_1p1 : Nat
  PM8XXX_REVISION_8018_2p0 : Nat
  PM8018_NR_IRQS : Nat
  PM8018_NR_GPIOS : Nat
  PM8018_NR_MPPS : Nat
  PM8018_GPIO_BLOCK_START : Nat
  PM8018_MPP_BLOCK_START : Nat
  PM8018_IRQ_BLOCK_BIT : Nat → Nat → Nat
  PM8018_RTC_ALARM_IRQ : Nat
  PM8018_PWRKEY_REL_IRQ : Nat
  PM8018_PWRKEY_PRESS_IRQ : Nat
  PM8XXX_GPIO_DEV_NAME : String
  PM8XXX_MPP_DEV_NAME : String
  PM8XXX_RTC_DEV_NAME : String
  PM8XXX_PWRKEY_DEV_NAME : String
  PM8XXX_MISC_DEV_NAME : String
  PM8018_REGULATOR_DEV_NAME : String
  sizeof_mfd_cell : Nat
  sizeof_pm8xxx_gpio_platform_data : Nat
  sizeof_pm8xxx_mpp_platform_data : Nat
  sizeof_pm8xxx_rtc_platform_data : Nat
  sizeof_pm8xxx_pwrkey_platform_data : Nat
  sizeof_pm8xxx_misc_platform_data : Nat
  sizeof_pm8018_regulator_platform_data : Nat

/-- One concrete choice of the header constants, used to evaluate the driver on
concrete inputs. -/
def msm_hdr : Hdr where
  ENODEV := 19
  ENOMEM := 12
  EINVAL := 22
  MAX_ERRNO := 4095
  PM8XXX_VERSION_8018 := 3
  PM8XXX_REVISION_8018_TEST := 0
  PM8XXX_REVISION_8018_1p0 := 1
  PM8XXX_REVISION_8018_1p1 := 2
  PM8XXX_REVISION_8018_2p0 := 3
  PM8018_NR_IRQS := 64
  PM8018_NR_GPIOS := 6
  PM8018_NR_MPPS := 6
  PM8018_GPIO_BLOCK_START := 6
  PM8018_MPP_BLOCK_START := 5
  PM8018_IRQ_BLOCK_BIT := fun block bit => block * 8 + bit
  PM8018_RTC_ALARM_IRQ := 39
  PM8018_PWRKEY_REL_IRQ := 50
  PM8018_PWRKEY_PRESS_IRQ := 51
  PM8XXX_GPIO_DEV_NAME := "pm8xxx-gpio"
  PM8XXX_MPP_DEV_NAME := "pm8xxx-mpp"
  PM8XXX_RTC_DEV_NAME := "rtc-pm8xxx"
  PM8XXX_PWRKEY_DEV_NAME := "pm8xxx-pwrkey"
  PM8XXX_MISC_DEV_NAME := "pm8xxx-misc"
  PM8018_REGULATOR_DEV_NAME := "pm8018-regulator"
  sizeof_mfd_cell := 48
  sizeof_pm8xxx_gpio_platform_data := 8
  sizeof_pm8xxx_mpp_platform_data := 12
  sizeof_pm8xxx_rtc_platform_data := 4
  sizeof_pm8xxx_pwrkey_platform_data := 12
  sizeof_pm8xxx_misc_platform_data := 4
  sizeof_pm8018_regulator_platform_data := 160

/-! ## Register addresses and masks (lines 26-40) -/

def REG_HWREV : Nat := 0x002
def REG_HWREV_2 : Nat := 0x0E8
def REG_MPP_BASE : Nat := 0x050
def REG_RTC_BASE : Nat := 0x11D
def PM8018_VERSION_MASK : Nat := 0xFFF0
def PM8018_VERSION_VALUE : Nat := 0x08F0
def PM8018_REVISION_MASK : Nat := 0x000F

/-- Modelled from the spec: `BITS_PER_BYTE` of `linux/bitops.h`, a header that is
not among the sources; the spec's RevisionWord shifts the high byte by 8. -/
def BITS_PER_BYTE : Nat := 8

/-! ## Resources and cells -/

/-- The two resource kinds the driver uses (`flags` of `struct resource`). -/
inductive ioresource_flags where
  | IORESOURCE_IRQ
  | IORESOURCE_IO
  deriving DecidableEq, Repr

/-- The fields of `struct resource` that the driver initialises. -/
structure resource where
  name : Option String
  start : Nat
  end_ : Nat
  flags : ioresource_flags
  deriving DecidableEq, Repr

/-- The macro `SINGLE_IRQ_RESOURCE(_name, _irq)` (lines 42-48). -/
def SINGLE_IRQ_RESOURCE (_name : Option String) (_irq : Nat) : resource :=
  { name := _name, start := _irq, end_ := _irq, flags := .IORESOURCE_IRQ }

/-- What the `platform_data` pointer of a cell points at: nothing, one of the
configuration objects of the board's platform data (the regulator entry with
index `i` is the object `&pdata->regulator_pdatas[i]`), or a string literal. -/
inductive pdata_ref where
  | NULL
  | gpio_pdata
  | mpp_pdata
  | rtc_pdata
  | pwrkey_pdata
  | misc_pdata
  | regulator_pdatas (i : Nat)
  | literal (s : String)
  deriving DecidableEq, Repr

/-- The fields of `struct mfd_cell` that the driver initialises. -/
structure mfd_cell where
  name : Option String
  id : Int
  resources : List resource
  num_resources : Nat
  platform_data : pdata_ref
  data_size : Nat
  deriving DecidableEq, Repr

/-- A cell as `kzalloc` hands it out: all fields zero. -/
def mfd_cell.zero : mfd_cell :=
  { name := none, id := 0, resources := [], num_resources := 0,
    platform_data := .NULL, data_size := 0 }

/-- The table `gpio_cell_resources` (lines 129-136). -/
def gpio_cell_resources (K : Hdr) : List resource :=
  [ { name := none
      start := K.PM8018_IRQ_BLOCK_BIT K.PM8018_GPIO_BLOCK_START 0
      end_ := K.PM8018_IRQ_BLOCK_BIT K.PM8018_GPIO_BLOCK_START 0 + K.PM8018_NR_GPIOS - 1
      flags := .IORESOURCE_IRQ } ]

/-- The static `gpio_cell` (lines 138-143). -/
def gpio_cell (K : Hdr) : mfd_cell :=
  { name := some K.PM8XXX_GPIO_DEV_NAME, id := -1,
    resources := gpio_cell_resources K,
    num_resources := (gpio_cell_resources K).length,
    platform_data := .NULL, data_size := 0 }

/-- The table `mpp_cell_resources` (lines 145-152). -/
def mpp_cell_resources (K : Hdr) : List resource :=
  [ { name := none
      start := K.PM8018_IRQ_BLOCK_BIT K.PM8018_MPP_BLOCK_START 0
      end_ := K.PM8018_IRQ_BLOCK_BIT K.PM8018_MPP_BLOCK_START 0 + K.PM8018_NR_MPPS - 1
      flags := .IORESOURCE_IRQ } ]

/-- The static `mpp_cell` (lines 154-159). -/
def mpp_cell (K : Hdr) : mfd_cell :=
  { name := some K.PM8XXX_MPP_DEV_NAME, id := -1,
    resources := mpp_cell_resources K,
    num_resources := (mpp_cell_resources K).length,
    platform_data := .NULL, data_size := 0 }

/-- The table `rtc_cell_resources` (lines 161-169). -/
def rtc_cell_resources (K : Hdr) : List resource :=
  [ SINGLE_IRQ_RESOURCE none K.PM8018_RTC_ALARM_IRQ,
    { name := some "pmic_rtc_base", start := REG_RTC_BASE, end_ := REG_RTC_BASE,
      flags := ioresource_flags.IORESOURCE_IO } ]

/-- The static `rtc_cell` (lines 171-176). -/
def rtc_cell (K : Hdr) : mfd_cell :=
  { name := some K.PM8XXX_RTC_DEV_NAME, id := -1,
    resources := rtc_cell_resources K,
    num_resources := (rtc_cell_resources K).length,
    platform_data := .NULL, data_size := 0 }

/-- The table `resources_pwrkey` (lines 178-181). -/
def resources_pwrkey (K : Hdr) : List resource :=
  [ SINGLE_IRQ_RESOURCE none K.PM8018_PWRKEY_REL_IRQ,
    SINGLE_IRQ_RESOURCE none K.PM8018_PWRKEY_PRESS_IRQ ]

/-- The static `pwrkey_cell` (lines 183-188). -/
def pwrkey_cell (K : Hdr) : mfd_cell :=
  { name := some K.PM8XXX_PWRKEY_DEV_NAME, id := -1,
    resources := resources_pwrkey K,
    num_resources := (resources_pwrkey K).length,
    platform_data := .NULL, data_size := 0 }

/-- The static `misc_cell` (lines 190-193). -/
def misc_cell (K : Hdr) : mfd_cell :=
  { name := some K.PM8XXX_MISC_DEV_NAME, id := -1,
    resources := [], num_resources := 0,
    platform_data := .NULL, data_size := 0 }

/-- The static `debugfs_cell` (lines 195-200); `sizeof("pm8018-dbg")` counts the
terminating zero byte. -/
def debugfs_cell : mfd_cell :=
  { name := some "pm8xxx-debug", id := -1,
    resources := [], num_resources := 0,
    platform_data := .literal "pm8018-dbg",
    data_size := "pm8018-dbg".length + 1 }

/-! ## Platform data (the board's configuration) -/

/-- Interrupt configuration: `irq_base` and `irq_cdata.nirqs` are the fields the
driver touches, `rest` stands for the others. -/
structure pm8xxx_irq_platform_data where
  irq_base : Int
  nirqs : Nat
  rest : Nat
  deriving DecidableEq, Repr

/-- GPIO configuration: `gpio_cdata.ngpios` and the remaining fields. -/
structure pm8xxx_gpio_platform_data where
  ngpios : Nat
  rest : Nat
  deriving DecidableEq, Repr

/-- MPP configuration: `core_data.nmpps`, `core_data.base_addr` and the
remaining fields. -/
structure pm8xxx_mpp_platform_data where
  nmpps : Nat
  base_addr : Nat
  rest : Nat
  deriving DecidableEq, Repr

/-- A configuration object the driver only passes on (rtc, power key, misc). -/
structure config_blob where
  contents : Nat
  deriving DecidableEq, Repr

/-- One regulator's configuration: the caller-assigned `id` and the remaining
fields. -/
structure pm8018_regulator_platform_data where
  id : Int
  rest : Nat
  deriving DecidableEq, Repr

/-- The fields of `struct pm8018_platform_data` that the driver reads. A `none`
is a null pointer; `regulator_pdatas` points at an array whose extent is the
length of the list. -/
structure pm8018_platform_data where
  irq_pdata : Option pm8xxx_irq_platform_data
  gpio_pdata : Option pm8xxx_gpio_platform_data
  mpp_pdata : Option pm8xxx_mpp_platform_data
  rtc_pdata : Option config_blob
  pwrkey_pdata : Option config_blob
  misc_pdata : Option config_blob
  num_regulators : Int
  regulator_pdatas : Option (List pm8018_regulator_platform_data)
  deriving DecidableEq, Repr

/-! ## Driver state -/

/-- The `struct pm8018` of lines 50-55. `dev` is left out: one device is
modelled, and every kernel call of the driver names it. `irq_chip` is the
pointer value, `0` for `NULL`; `rev_registers` is a `u32`. -/
structure pm8018 where
  irq_chip : Int
  mfd_regulators : Option (List mfd_cell)
  rev_registers : Nat
  deriving DecidableEq, Repr

/-- The field of `struct pm8xxx_drvdata` that holds the chip data pointer. -/
structure pm8xxx_drvdata where
  pm_chip_data : Option pm8018
  deriving DecidableEq, Repr

/-- The platform device as the driver sees it: its platform data pointer and
its driver data pointer. -/
structure platform_device where
  platform_data : Option pm8018_platform_data
  drvdata : Option pm8xxx_drvdata
  deriving DecidableEq, Repr

/-! ## Kernel calls -/

/-- The call sites of `mfd_add_devices` in `pm8018_add_subdevices`, in program
order. -/
inductive Step where
  | gpio
  | mpp
  | rtc
  | pwrkey
  | misc
  | debug
  | regulators
  deriving DecidableEq, Repr

/-- An argument of a log call. -/
inductive log_arg where
  | int (v : Int)
  | str (s : Option String)
  deriving DecidableEq, Repr

/-- The two objects the driver allocates. -/
inductive heap_obj where
  | pmic
  | mfd_regulators
  deriving DecidableEq, Repr

/-- A call of the driver into the kernel, with the arguments that vary and the
value the kernel returned. -/
inductive Event where
  | kzalloc (what : heap_obj) (ok : Bool)
  | kfree (what : heap_obj)
  | msm_ssbi_read (addr : Nat) (rc : Int)
  | platform_set_drvdata (nonnull : Bool)
  | pm8xxx_irq_init (irq_pdata : pm8xxx_irq_platform_data) (result : Int)
  | pm8xxx_irq_exit (chip : Int)
  | mfd_add_devices (site : Step) (cells : List mfd_cell) (n_devs : Int)
      (irq_base : Int) (ret : Int)
  | mfd_remove_devices
  | pr_err (fmt : String) (args : List log_arg)
  | pr_info (fmt : String) (args : List log_arg)
  | WARN_ON
  deriving DecidableEq, Repr

/-- The kernel's answers, one per call site of the driver: whether each
`kzalloc` returns memory, the return code and byte of `msm_ssbi_read` at an
address, the pointer `pm8xxx_irq_init` returns, and the return code of
`mfd_add_devices` at each of its call sites. -/
structure Host where
  kzalloc_pmic : Bool
  msm_ssbi_read : Nat → Int × Nat
  pm8xxx_irq_init : Int
  mfd_add_devices : Step → Int
  kzalloc_regulators : Bool

/-- Modelled from the spec: `IS_ERR` of `linux/err.h` is not among the sources.
The spec's interrupt-chip factory returns a handle or an error; as in the
kernel, an error is a pointer among the top `MAX_ERRNO` addresses, which as
signed words are `-MAX_ERRNO .. -1`. -/
def IS_ERR (K : Hdr) (ptr : Int) : Bool :=
  decide (-(K.MAX_ERRNO : Int) ≤ ptr ∧ ptr < 0)

/-- Modelled from the spec: `PTR_ERR` of `linux/err.h` is not among the sources;
the error number an error pointer carries is the pointer value as a signed
number. -/
def PTR_ERR (ptr : Int) : Int := ptr

/-! ## Version and revision (lines 99-117) -/

/-- The function `pm8018_get_version`; the argument is what
`dev_get_drvdata(dev)` returns.
The enum result is modelled by its integer value. -/
def pm8018_get_version (K : Hdr) (pm8018_drvdata : Option pm8xxx_drvdata) : Option Int :=
  match pm8018_drvdata with
  | none => none
  | some dd =>
    match dd.pm_chip_data with
    | none => none
    | some pmic =>
      let version : Int := -(K.ENODEV : Int)
      let version :=
        if pmic.rev_registers &&& PM8018_VERSION_MASK = PM8018_VERSION_VALUE then
          (K.PM8XXX_VERSION_8018 : Int)
        else version
      some version

/-- The function `pm8018_get_revision`; the argument is what
`dev_get_drvdata(dev)` returns. -/
def pm8018_get_revision (pm8018_drvdata : Option pm8xxx_drvdata) : Option Int :=
  match pm8018_drvdata with
  | none => none
  | some dd =>
    match dd.pm_chip_data with
    | none => none
    | some pmic => some ((pmic.rev_registers &&& PM8018_REVISION_MASK : Nat) : Int)

/-! ## Revision names (lines 328-333, 379-388) -/

/-- One designated initialiser `[idx] = s` applied to the array built so far:
the array grows to hold index `idx`, the slots in between are null. -/
def designated (tbl : List (Option String)) (idx : Nat) (s : String) :
    List (Option String) :=
  if idx < tbl.length then tbl.set idx (some s)
  else tbl ++ List.replicate (idx - tbl.length) none ++ [some s]

/-- The array `pm8018_rev_names`. -/
def pm8018_rev_names (K : Hdr) : List (Option String) :=
  designated
    (designated
      (designated
        (designated [] K.PM8XXX_REVISION_8018_TEST "test")
        K.PM8XXX_REVISION_8018_1p0 "1.0")
      K.PM8XXX_REVISION_8018_1p1 "1.1")
    K.PM8XXX_REVISION_8018_2p0 "2.0"

/-- The value of `ARRAY_SIZE(pm8018_rev_names)`. -/
def ARRAY_SIZE_pm8018_rev_names (K : Hdr) : Nat := (pm8018_rev_names K).length

/-- The name lookup of `pm8018_probe` (lines 338, 383-384): `revision_name`
starts as "unknown" and is replaced by the table entry when the guard holds.
The outer `Option` is `none` when the array is read outside its bounds, the
inner one is the `char *` read (`none` for a null entry). -/
def probe_revision_name (K : Hdr) (revision : Int) : Option (Option String) :=
  let revision_name : Option String := some "unknown"
  if 0 ≤ revision ∧ revision < (ARRAY_SIZE_pm8018_rev_names K : Int) then
    (pm8018_rev_names K)[revision.toNat]?
  else some revision_name

/-! ## `pm8018_add_subdevices` (lines 202-326) -/

/-- What `pm8018_add_subdevices` works on: the platform data and the chip
structure its arguments point at, the local `irq_base`, and the trace of kernel
calls made so far. -/
structure Ctx where
  pdata : pm8018_platform_data
  pmic : pm8018
  irq_base : Int
  trace : List Event
  deriving DecidableEq, Repr

/-- How a block of statements ends: control falls through to the next block,
jumps to the label `bail` with the local `ret` set, returns directly, or the run
has no defined result. -/
inductive Flow where
  | next (s : Ctx)
  | bail (ret : Int) (s : Ctx)
  | ret (rc : Int) (s : Ctx)
  | fault
  deriving DecidableEq, Repr

/-- Sequencing of blocks: the second block runs only when the first one falls
through. -/
def Flow.andThen (f : Flow) (g : Ctx → Flow) : Flow :=
  match f with
  | .next s => g s
  | .bail r s => .bail r s
  | .ret r s => .ret r s
  | .fault => .fault

/-- Lines 211-222: interrupt initialisation. The error pointer holds a small
negative number, which the conversion of the return statement keeps. -/
def add_irq (K : Hdr) (host : Host) (s : Ctx) : Flow :=
  match s.pdata.irq_pdata with
  | none => .next s
  | some ip =>
    let ip : pm8xxx_irq_platform_data := { ip with nirqs := K.PM8018_NR_IRQS }
    let s : Ctx :=
      { s with pdata := { s.pdata with irq_pdata := some ip }, irq_base := ip.irq_base }
    let irq_chip := host.pm8xxx_irq_init
    let s : Ctx := { s with trace := s.trace ++ [.pm8xxx_irq_init ip irq_chip] }
    if IS_ERR K irq_chip then
      .ret (PTR_ERR irq_chip)
        { s with trace := s.trace ++
            [.pr_err "Failed to init interrupts ret=%ld\n" [.int (PTR_ERR irq_chip)]] }
    else .next { s with pmic := { s.pmic with irq_chip := irq_chip } }

/-- The statement pattern shared by the single-cell steps:
`ret = mfd_add_devices(pmic->dev, 0, &cell, 1, NULL, irq_base);`
`if (ret) { pr_err(fmt, ret); goto bail; }`. -/
def mfd_add_one (host : Host) (site : Step) (cell : mfd_cell) (fmt : String)
    (s : Ctx) : Flow :=
  let ret := host.mfd_add_devices site
  let s : Ctx :=
    { s with trace := s.trace ++ [.mfd_add_devices site [cell] 1 s.irq_base ret] }
  if ret ≠ 0 then .bail ret { s with trace := s.trace ++ [.pr_err fmt [.int ret]] }
  else .next s

/-- Lines 224-234. -/
def add_gpio (K : Hdr) (host : Host) (s : Ctx) : Flow :=
  match s.pdata.gpio_pdata with
  | none => .next s
  | some gp =>
    let gp : pm8xxx_gpio_platform_data := { gp with ngpios := K.PM8018_NR_GPIOS }
    let s : Ctx := { s with pdata := { s.pdata with gpio_pdata := some gp } }
    let cell : mfd_cell := { gpio_cell K with
      platform_data := .gpio_pdata, data_size := K.sizeof_pm8xxx_gpio_platform_data }
    mfd_add_one host .gpio cell "Failed to add  gpio subdevice ret=%d\n" s

/-- Lines 236-247. -/
def add_mpp (K : Hdr) (host : Host) (s : Ctx) : Flow :=
  match s.pdata.mpp_pdata with
  | none => .next s
  | some mp =>
    let mp : pm8xxx_mpp_platform_data := { mp with nmpps := K.PM8018_NR_MPPS }
    let mp : pm8xxx_mpp_platform_data := { mp with base_addr := REG_MPP_BASE }
    let s : Ctx := { s with pdata := { s.pdata with mpp_pdata := some mp } }
    let cell : mfd_cell := { mpp_cell K with
      platform_data := .mpp_pdata, data_size := K.sizeof_pm8xxx_mpp_platform_data }
    mfd_add_one host .mpp cell "Failed to add mpp subdevice ret=%d\n" s

/-- Lines 249-258. -/
def add_rtc (K : Hdr) (host : Host) (s : Ctx) : Flow :=
  match s.pdata.rtc_pdata with
  | none => .next s
  | some _ =>
    let cell : mfd_cell := { rtc_cell K with
      platform_data := .rtc_pdata, data_size := K.sizeof_pm8xxx_rtc_platform_data }
    mfd_add_one host .rtc cell "Failed to add rtc subdevice ret=%d\n" s

/-- Lines 260-270. -/
def add_pwrkey (K : Hdr) (host : Host) (s : Ctx) : Flow :=
  match s.pdata.pwrkey_pdata with
  | none => .next s
  | some _ =>
    let cell : mfd_cell := { pwrkey_cell K with
      platform_data := .pwrkey_pdata, data_size := K.sizeof_pm8xxx_pwrkey_platform_data }
    mfd_add_one host .pwrkey cell "Failed to add pwrkey subdevice ret=%d\n" s

/-- Lines 272-281. -/
def add_misc (K : Hdr) (host : Host) (s : Ctx) : Flow :=
  match s.pdata.misc_pdata with
  | none => .next s
  | some _ =>
    let cell : mfd_cell := { misc_cell K with
      platform_data := .misc_pdata, data_size := K.sizeof_pm8xxx_misc_platform_data }
    mfd_add_one host .misc cell "Failed to add  misc subdevice ret=%d\n" s

/-- Lines 283-287: the debug cell has no guard. -/
def add_debugfs (host : Host) (s : Ctx) : Flow :=
  mfd_add_one host .debug debugfs_cell "Failed to add debugfs subdevice ret=%d\n" s

/-- The writes of one loop iteration (lines 301-306) to the cell
`mfd_regulators[i]`, for the regulator entry `r = pdata->regulator_pdatas[i]`. -/
def regulator_cell (K : Hdr) (i : Nat) (r : pm8018_regulator_platform_data)
    (c : mfd_cell) : mfd_cell :=
  { c with
    name := some K.PM8018_REGULATOR_DEV_NAME
    id := r.id
    platform_data := .regulator_pdatas i
    data_size := K.sizeof_pm8018_regulator_platform_data }

/-- The loop of lines 300-307 with `count` iterations left, the next index `i`
and the array `cells`. Reading either array outside its extent ends the run
with no result. -/
def fill_regulators (K : Hdr) (regs : List pm8018_regulator_platform_data) :
    (count : Nat) → (i : Nat) → (cells : List mfd_cell) → Option (List mfd_cell)
  | 0, _, cells => some cells
  | count + 1, i, cells =>
    match regs[i]?, cells[i]? with
    | some r, some c =>
      fill_regulators K regs count (i + 1) (cells.set i (regulator_cell K i r c))
    | _, _ => none

/-- Lines 289-317: one cell per regulator, registered in one call. -/
def add_regulators (K : Hdr) (host : Host) (s : Ctx) : Flow :=
  match decide (0 < s.pdata.num_regulators), s.pdata.regulator_pdatas with
  | true, some regs =>
    let n := s.pdata.num_regulators.toNat
    if host.kzalloc_regulators = false then
      .bail (-(K.ENOMEM : Int))
        { s with trace := s.trace ++
            [.kzalloc .mfd_regulators false,
             .pr_err "Cannot allocate %d bytes for pm8018 regulator mfd cells\n"
               [.int ((K.sizeof_mfd_cell : Int) * s.pdata.num_regulators)]] }
    else
      let s : Ctx := { s with trace := s.trace ++ [.kzalloc .mfd_regulators true] }
      match fill_regulators K regs n 0 (List.replicate n mfd_cell.zero) with
      | none => .fault
      | some mfd_regulators =>
        let ret := host.mfd_add_devices .regulators
        let s : Ctx := { s with trace := s.trace ++
          [.mfd_add_devices .regulators mfd_regulators s.pdata.num_regulators s.irq_base ret] }
        if ret ≠ 0 then
          .bail ret
            { s with trace := s.trace ++
                [.pr_err "Failed to add regulator subdevices ret=%d\n" [.int ret],
                 .kfree .mfd_regulators] }
        else .next { s with pmic := { s.pmic with mfd_regulators := some mfd_regulators } }
  | _, _ => .next s

/-- The label `bail` (lines 320-325). -/
def bail (ret : Int) (s : Ctx) : Int × Ctx :=
  if s.pmic.irq_chip ≠ 0 then
    (ret, { s with
              pmic := { s.pmic with irq_chip := 0 }
              trace := s.trace ++ [.pm8xxx_irq_exit s.pmic.irq_chip] })
  else (ret, s)

/-- The blocks of `pm8018_add_subdevices` in program order. -/
def add_blocks (K : Hdr) (host : Host) (s : Ctx) : Flow :=
  (add_irq K host s).andThen fun s =>
  (add_gpio K host s).andThen fun s =>
  (add_mpp K host s).andThen fun s =>
  (add_rtc K host s).andThen fun s =>
  (add_pwrkey K host s).andThen fun s =>
  (add_misc K host s).andThen fun s =>
  (add_debugfs host s).andThen fun s =>
  add_regulators K host s

/-- The function `pm8018_add_subdevices`: the return value with the final state of the
objects and the trace of kernel calls; `none` when the run has no defined
result. -/
def pm8018_add_subdevices (K : Hdr) (host : Host) (pdata : pm8018_platform_data)
    (pmic : pm8018) : Option (Int × Ctx) :=
  match add_blocks K host { pdata := pdata, pmic := pmic, irq_base := 0, trace := [] } with
  | .next s => some (0, s)
  | .bail ret s => some (bail ret s)
  | .ret rc s => some (rc, s)
  | .fault => none

/-! ## `pm8018_probe` (lines 335-407) and `pm8018_remove` (lines 409-428) -/

/-- What a call of `pm8018_probe` leaves behind: the return code, the platform
device (its platform data as the driver left it, its driver data pointer), the
last contents of the `struct pm8018` the call allocated (`none` when it
allocated none), whether that structure was freed, and the trace. -/
structure probe_result where
  rc : Int
  pdev : platform_device
  pmic : Option pm8018
  pmic_freed : Bool
  trace : List Event
  deriving DecidableEq, Repr

/-- The label `err_read_rev` (lines 404-406). -/
def err_read_rev (rc : Int) (pdev : platform_device) (pmic : pm8018)
    (trace : List Event) : probe_result :=
  { rc := rc, pdev := pdev, pmic := some pmic, pmic_freed := true,
    trace := trace ++ [.kfree .pmic] }

/-- The label `err` (lines 401-403), which falls through to `err_read_rev`. -/
def err (rc : Int) (pdev : platform_device) (pmic : pm8018)
    (trace : List Event) : probe_result :=
  err_read_rev rc { pdev with drvdata := none } pmic
    (trace ++ [.mfd_remove_devices, .platform_set_drvdata false])

/-- Lines 379-388 of `pm8018_probe`: the version and revision names are
printed. The wrappers `pm8xxx_get_version` and `pm8xxx_get_revision` of `core.h`
call the operations of the driver data that probe has just installed, that is
`pm8018_get_version` and `pm8018_get_revision`. The result is the log calls
made. -/
def probe_print_version (K : Hdr) (drvdata : Option pm8xxx_drvdata) : Option (List Event) :=
  match pm8018_get_version K drvdata with
  | none => none
  | some version =>
    if version = (K.PM8XXX_VERSION_8018 : Int) then
      match pm8018_get_revision drvdata with
      | none => none
      | some revision =>
        match probe_revision_name K revision with
        | none => none
        | some revision_name =>
          some [.pr_info "PMIC version: PM8018 rev %s\n" [.str revision_name]]
    else some [.WARN_ON]

/-- The function `pm8018_probe`. -/
def pm8018_probe (K : Hdr) (host : Host) (pdev : platform_device) : Option probe_result :=
  match pdev.platform_data with
  | none =>
    some { rc := -(K.EINVAL : Int), pdev := pdev, pmic := none, pmic_freed := false,
           trace := [.pr_err "missing platform data\n" []] }
  | some pdata =>
    if host.kzalloc_pmic = false then
      some { rc := -(K.ENOMEM : Int), pdev := pdev, pmic := none, pmic_freed := false,
             trace := [.kzalloc .pmic false, .pr_err "Cannot alloc pm8018 struct\n" []] }
    else
      let pmic : pm8018 := { irq_chip := 0, mfd_regulators := none, rev_registers := 0 }
      let trace : List Event := [.kzalloc .pmic true]
      let rc := (host.msm_ssbi_read REG_HWREV).1
      let trace := trace ++ [.msm_ssbi_read REG_HWREV rc]
      if rc ≠ 0 then
        err_read_rev rc pdev pmic
          (trace ++ [.pr_err "Failed to read hw rev 1 reg %d:rc=%d\n"
            [.int REG_HWREV, .int rc]])
      else
        let val : Nat := (host.msm_ssbi_read REG_HWREV).2 % 256
        let trace := trace ++ [.pr_info "PMIC revision 1: %02X\n" [.int val]]
        let pmic : pm8018 := { pmic with rev_registers := val }
        let rc := (host.msm_ssbi_read REG_HWREV_2).1
        let trace := trace ++ [.msm_ssbi_read REG_HWREV_2 rc]
        if rc ≠ 0 then
          err_read_rev rc pdev pmic
            (trace ++ [.pr_err "Failed to read hw rev 2 reg %d:rc=%d\n"
              [.int REG_HWREV_2, .int rc]])
        else
          let val : Nat := (host.msm_ssbi_read REG_HWREV_2).2 % 256
          let trace := trace ++ [.pr_info "PMIC revision 2: %02X\n" [.int val]]
          let pmic : pm8018 := { pmic with
            rev_registers := (pmic.rev_registers ||| (val <<< BITS_PER_BYTE)) % 2 ^ 32 }
          let pdev : platform_device :=
            { pdev with drvdata := some { pm_chip_data := some pmic } }
          let trace := trace ++ [.platform_set_drvdata true]
          match probe_print_version K pdev.drvdata with
          | none => none
          | some evs =>
            let trace := trace ++ evs
            match pm8018_add_subdevices K host pdata pmic with
            | none => none
            | some (rc, s) =>
              let trace := trace ++ s.trace
              let pdev : platform_device := { pdev with platform_data := some s.pdata }
              if rc ≠ 0 then
                err rc pdev s.pmic
                  (trace ++ [.pr_err "Cannot add subdevices rc=%d\n" [.int rc]])
              else
                let trace := if s.pmic.irq_chip = 0 then trace ++ [.WARN_ON] else trace
                some { rc := 0
                       pdev := { pdev with drvdata := some { pm_chip_data := some s.pmic } }
                       pmic := some s.pmic, pmic_freed := false, trace := trace }

/-- What a call of `pm8018_remove` leaves behind. -/
structure remove_result where
  rc : Int
  pdev : platform_device
  trace : List Event
  deriving DecidableEq, Repr

/-- The function `pm8018_remove`. Line 419 reads `pmic->irq_chip` whether or not `pmic` is
null; with a null `pmic` that read has no defined result. -/
def pm8018_remove (pdev : platform_device) : Option remove_result :=
  let drvdata := pdev.drvdata
  let pmic : Option pm8018 := none
  let pmic : Option pm8018 :=
    match drvdata with
    | some dd => dd.pm_chip_data
    | none => pmic
  let trace : List Event :=
    match pmic with
    | some _ => [.mfd_remove_devices]
    | none => []
  match pmic with
  | none => none
  | some p =>
    let trace := if p.irq_chip ≠ 0 then trace ++ [.pm8xxx_irq_exit p.irq_chip] else trace
    some { rc := 0
           pdev := { pdev with drvdata := none }
           trace := trace ++
             [.platform_set_drvdata false, .kfree .mfd_regulators, .kfree .pmic] }

/-! ## Observations on configurations and traces -/

/-- Whether the guard of a registration step holds for a configuration: the
optional configuration object is there; for the regulators,
`num_regulators > 0 && regulator_pdatas`; the debug step has no guard. -/
def present (p : pm8018_platform_data) : Step → Bool
  | .gpio => p.gpio_pdata.isSome
  | .mpp => p.mpp_pdata.isSome
  | .rtc => p.rtc_pdata.isSome
  | .pwrkey => p.pwrkey_pdata.isSome
  | .misc => p.misc_pdata.isSome
  | .debug => true
  | .regulators => decide (0 < p.num_regulators) && p.regulator_pdatas.isSome

/-- The registration steps in program order. -/
def steps : List Step := [.gpio, .mpp, .rtc, .pwrkey, .misc, .debug, .regulators]

/-- The steps that come before a step in program order. -/
def stepsBefore : Step → List Step
  | .gpio => []
  | .mpp => [.gpio]
  | .rtc => [.gpio, .mpp]
  | .pwrkey => [.gpio, .mpp, .rtc]
  | .misc => [.gpio, .mpp, .rtc, .pwrkey]
  | .debug => [.gpio, .mpp, .rtc, .pwrkey, .misc]
  | .regulators => [.gpio, .mpp, .rtc, .pwrkey, .misc, .debug]

/-- The steps of a configuration: the fixed order restricted to the steps whose
guard holds. -/
def planned (p : pm8018_platform_data) : List Step := steps.filter (present p)

/-- The configuration's regulator array is at least as long as
`num_regulators` says, so the loop over it stays inside the array. -/
def WellFormed (p : pm8018_platform_data) : Prop :=
  ∀ regs, p.regulator_pdatas = some regs → 0 < p.num_regulators →
    p.num_regulators ≤ (regs.length : Int)

instance (p : pm8018_platform_data) : Decidable (WellFormed p) := by
  unfold WellFormed
  cases h : p.regulator_pdatas with
  | none => exact isTrue (by intro regs hr; cases hr)
  | some regs =>
    by_cases hn : 0 < p.num_regulators → p.num_regulators ≤ (regs.length : Int)
    · exact isTrue (by intro r hr; cases hr; exact hn)
    · exact isFalse (by intro hc; exact hn (hc regs rfl))

/-- The value `irq_base` has after the interrupt block. -/
def irq_base_of (p : pm8018_platform_data) : Int :=
  match p.irq_pdata with
  | some ip => ip.irq_base
  | none => 0

/-- Interrupt initialisation failed: the configuration asks for interrupts and
`pm8xxx_irq_init` returned an error pointer. -/
def irq_failed (K : Hdr) (host : Host) (p : pm8018_platform_data) : Bool :=
  p.irq_pdata.isSome && IS_ERR K host.pm8xxx_irq_init

/-- The interrupt chip the bring-up created: the pointer `pm8xxx_irq_init`
returned when the configuration asks for interrupts and the pointer is no error
pointer; `0` when no chip was created. -/
def chip_of (K : Hdr) (host : Host) (p : pm8018_platform_data) : Int :=
  if p.irq_pdata.isSome && !IS_ERR K host.pm8xxx_irq_init then host.pm8xxx_irq_init else 0

/-- The chip structure `pm8018_probe` hands to `pm8018_add_subdevices`: zeroed
by `kzalloc`, with the revision word stored. -/
def fresh_pmic (rev : Nat) : pm8018 :=
  { irq_chip := 0, mfd_regulators := none, rev_registers := rev }

/-- The revision word `pm8018_probe` stores when the two revision reads return
the bytes `low` and `high`. -/
def revision_word (low high : Nat) : Nat :=
  ((low % 256) ||| ((high % 256) <<< BITS_PER_BYTE)) % 2 ^ 32

/-- The kernel lets `pm8018_probe` reach `pm8018_add_subdevices`: the chip
structure is allocated and both revision reads succeed. -/
def Reaches (host : Host) : Prop :=
  host.kzalloc_pmic = true ∧ (host.msm_ssbi_read REG_HWREV).1 = 0 ∧
    (host.msm_ssbi_read REG_HWREV_2).1 = 0

instance (host : Host) : Decidable (Reaches host) := by
  unfold Reaches
  exact inferInstance

/-- The arguments and the result of one `mfd_add_devices` call. -/
structure AddCall where
  site : Step
  cells : List mfd_cell
  n_devs : Int
  irq_base : Int
  ret : Int
  deriving DecidableEq, Repr

/-- The registration call an event records, if it is one. -/
def Event.addCall : Event → Option AddCall
  | .mfd_add_devices site cells n_devs irq_base ret => some ⟨site, cells, n_devs, irq_base, ret⟩
  | _ => none

/-- The registration calls of a trace, in order. -/
def addCalls (tr : List Event) : List AddCall := tr.filterMap Event.addCall

/-- Teardown calls: `mfd_remove_devices` and `pm8xxx_irq_exit`. -/
def Event.isTeardown : Event → Bool
  | .mfd_remove_devices => true
  | .pm8xxx_irq_exit _ => true
  | _ => false

/-- The teardown calls of a trace, in order. -/
def teardowns (tr : List Event) : List Event := tr.filter Event.isTeardown

/-- The address an event reads over the bus, if it is a bus read. -/
def Event.readAddr : Event → Option Nat
  | .msm_ssbi_read addr _ => some addr
  | _ => none

/-- The addresses read over the bus, in order. -/
def busReads (tr : List Event) : List Nat := tr.filterMap Event.readAddr

/-- Modelled from the spec: the kernel's `mfd_add_devices` and
`mfd_remove_devices` are not among the sources. Following the spec's host
registration primitive, a call that returns success registers all cells it was
given, a call that fails registers none, and `remove_all` removes everything
registered for the device. -/
def ledger_step (registered : List mfd_cell) : Event → List mfd_cell
  | .mfd_add_devices _ cells _ _ ret => if ret = 0 then registered ++ cells else registered
  | .mfd_remove_devices => []
  | _ => registered

/-- The sub-devices registered for the device after a trace of kernel calls. -/
def registered (tr : List Event) : List mfd_cell := tr.foldl ledger_step []

/-- The cells the regulator loop produces for the entries `rs`, the first of
which has index `i`. -/
def regulator_cells (K : Hdr) : (i : Nat) → List pm8018_regulator_platform_data → List mfd_cell
  | _, [] => []
  | i, r :: rs => regulator_cell K i r mfd_cell.zero :: regulator_cells K (i + 1) rs

/-- The cells a registration step passes to `mfd_add_devices`. -/
def stepCells (K : Hdr) (p : pm8018_platform_data) : Step → List mfd_cell
  | .gpio => [{ gpio_cell K with
      platform_data := .gpio_pdata, data_size := K.sizeof_pm8xxx_gpio_platform_data }]
  | .mpp => [{ mpp_cell K with
      platform_data := .mpp_pdata, data_size := K.sizeof_pm8xxx_mpp_platform_data }]
  | .rtc => [{ rtc_cell K with
      platform_data := .rtc_pdata, data_size := K.sizeof_pm8xxx_rtc_platform_data }]
  | .pwrkey => [{ pwrkey_cell K with
      platform_data := .pwrkey_pdata, data_size := K.sizeof_pm8xxx_pwrkey_platform_data }]
  | .misc => [{ misc_cell K with
      platform_data := .misc_pdata, data_size := K.sizeof_pm8xxx_misc_platform_data }]
  | .debug => [debugfs_cell]
  | .regulators =>
    regulator_cells K 0 ((p.regulator_pdatas.getD []).take p.num_regulators.toNat)

/-- The device count a registration step passes to `mfd_add_devices`. -/
def stepCount (p : pm8018_platform_data) : Step → Int
  | .regulators => p.num_regulators
  | _ => 1

/-- The registration call of a step with result `ret`. -/
def stepCall (K : Hdr) (p : pm8018_platform_data) (ret : Int) (k : Step) : AddCall :=
  ⟨k, stepCells K p k, stepCount p k, irq_base_of p, ret⟩

/-- The successful registration calls of the steps of `l` whose guard holds. -/
def callsOf (K : Hdr) (p : pm8018_platform_data) (l : List Step) : List AddCall :=
  (l.filter (present p)).map (stepCall K p 0)

/-- The format string of the error line a failing step logs. -/
def fail_fmt : Step → String
  | .gpio => "Failed to add  gpio subdevice ret=%d\n"
  | .mpp => "Failed to add mpp subdevice ret=%d\n"
  | .rtc => "Failed to add rtc subdevice ret=%d\n"
  | .pwrkey => "Failed to add pwrkey subdevice ret=%d\n"
  | .misc => "Failed to add  misc subdevice ret=%d\n"
  | .debug => "Failed to add debugfs subdevice ret=%d\n"
  | .regulators => "Failed to add regulator subdevices ret=%d\n"

/-- What a block leaves unchanged: `irq_base`, the chip pointer, the revision
word, the guards and the regulator array of the configuration, and the teardown
calls and bus reads of the trace. -/
structure Frame (s s' : Ctx) : Prop where
  irq_base : s'.irq_base = s.irq_base
  irq_chip : s'.pmic.irq_chip = s.pmic.irq_chip
  rev : s'.pmic.rev_registers = s.pmic.rev_registers
  guards : ∀ k, present s'.pdata k = present s.pdata k
  num : s'.pdata.num_regulators = s.pdata.num_regulators
  regs : s'.pdata.regulator_pdatas = s.pdata.regulator_pdatas
  irq : irq_base_of s'.pdata = irq_base_of s.pdata
  down : teardowns s'.trace = teardowns s.trace
  reads : busReads s'.trace = busReads s.trace

/-- The two ways a single-cell registration step ends. -/
def StepSpec (K : Hdr) (host : Host) (k : Step) (s : Ctx) (out : Flow) : Prop :=
  (∃ s', out = .next s' ∧ Frame s s' ∧
      (present s.pdata k = true → host.mfd_add_devices k = 0) ∧
      addCalls s'.trace = addCalls s.trace ++
        (if present s.pdata k = true then
          [⟨k, stepCells K s.pdata k, 1, s.irq_base, 0⟩] else [])) ∨
  (∃ s', out = .bail (host.mfd_add_devices k) s' ∧ Frame s s' ∧
      present s.pdata k = true ∧ host.mfd_add_devices k ≠ 0 ∧
      addCalls s'.trace = addCalls s.trace ++
        [⟨k, stepCells K s.pdata k, 1, s.irq_base, host.mfd_add_devices k⟩] ∧
      Event.pr_err (fail_fmt k) [.int (host.mfd_add_devices k)] ∈ s'.trace)

/-- Chip releases: `pm8xxx_irq_exit`. -/
def Event.isIrqExit : Event → Bool
  | .pm8xxx_irq_exit _ => true
  | _ => false

/-! ## Concrete inputs -/

/-- A kernel that answers every call with success: the revision registers read
`0xF3` and `0x08`, interrupt initialisation returns the chip at `4096`. -/
def host_ok : Host :=
  { kzalloc_pmic := true
    msm_ssbi_read := fun addr => if addr = REG_HWREV then (0, 0xF3) else (0, 0x08)
    pm8xxx_irq_init := 4096
    mfd_add_devices := fun _ => 0
    kzalloc_regulators := true }

/-- The kernel of `host_ok`, except that registering the cell of step `k` fails
with `-5`. -/
def host_failing (k : Step) : Host :=
  { host_ok with mfd_add_devices := fun j => if j = k then -5 else 0 }

/-- The kernel of `host_ok`, except that the regulator cells cannot be
allocated. -/
def host_nomem : Host :=
  { host_ok with kzalloc_regulators := false }

/-- A board with only `rtc` and `misc` configured. -/
def board_rtc_misc : pm8018_platform_data :=
  { irq_pdata := none, gpio_pdata := none, mpp_pdata := none,
    rtc_pdata := some ⟨1⟩, pwrkey_pdata := none, misc_pdata := some ⟨2⟩,
    num_regulators := 0, regulator_pdatas := none }

/-- A board with interrupts, gpio, rtc and three regulators with the ids 7, 3
and 9. -/
def board_regulators : pm8018_platform_data :=
  { irq_pdata := some ⟨256, 0, 0⟩, gpio_pdata := some ⟨0, 0⟩, mpp_pdata := none,
    rtc_pdata := some ⟨1⟩, pwrkey_pdata := none, misc_pdata := none,
    num_regulators := 3, regulator_pdatas := some [⟨7, 10⟩, ⟨3, 20⟩, ⟨9, 30⟩] }

/-- A platform device that has not been probed, for a board. -/
def device_of (p : pm8018_platform_data) : platform_device :=
  { platform_data := some p, drvdata := none }

/-- The three ways the regulator step ends: it falls through (skipped, or
registered), its registration call fails, or the allocation fails. -/
def RegSpec (K : Hdr) (host : Host) (s : Ctx) (out : Flow) : Prop :=
  (∃ s', out = .next s' ∧ Frame s s' ∧
      (present s.pdata .regulators = true →
        host.kzalloc_regulators = true ∧ host.mfd_add_devices .regulators = 0) ∧
      addCalls s'.trace = addCalls s.trace ++
        (if present s.pdata .regulators = true then
          [⟨.regulators, stepCells K s.pdata .regulators, s.pdata.num_regulators,
            s.irq_base, 0⟩] else [])) ∨
  (∃ s', out = .bail (host.mfd_add_devices .regulators) s' ∧ Frame s s' ∧
      present s.pdata .regulators = true ∧ host.kzalloc_regulators = true ∧
      host.mfd_add_devices .regulators ≠ 0 ∧
      addCalls s'.trace = addCalls s.trace ++
        [⟨.regulators, stepCells K s.pdata .regulators, s.pdata.num_regulators,
          s.irq_base, host.mfd_add_devices .regulators⟩] ∧
      Event.pr_err (fail_fmt .regulators) [.int (host.mfd_add_devices .regulators)]
        ∈ s'.trace) ∨
  (∃ s', out = .bail (-(K.ENOMEM : Int)) s' ∧ Frame s s' ∧
      present s.pdata .regulators = true ∧ host.kzalloc_regulators = false ∧
      addCalls s'.trace = addCalls s.trace)

/-- What holds between the blocks of `pm8018_add_subdevices`, after the steps
of `l` have run for the configuration `p`: the registration calls made are the
successful calls of the steps of `l` whose guard holds, nothing was torn down,
and the chip pointer is the one interrupt initialisation produced. -/
structure Inv (K : Hdr) (host : Host) (p : pm8018_platform_data) (rev : Nat)
    (l : List Step) (s : Ctx) : Prop where
  calls : addCalls s.trace = callsOf K p l
  down : teardowns s.trace = []
  reads : busReads s.trace = []
  irq_base : s.irq_base = irq_base_of p
  irq_chip : s.pmic.irq_chip = chip_of K host p
  rev : s.pmic.rev_registers = rev
  guards : ∀ k, present s.pdata k = present p k
  num : s.pdata.num_regulators = p.num_regulators
  regs : s.pdata.regulator_pdatas = p.regulator_pdatas
  ok : ∀ j ∈ l, present p j = true → host.mfd_add_devices j = 0

/-- What holds at the jump to `bail` after the registration call of step `k`
failed. -/
structure BailFacts (K : Hdr) (host : Host) (p : pm8018_platform_data) (rev : Nat)
    (k : Step) (s : Ctx) : Prop where
  guard : present p k = true
  failed : host.mfd_add_devices k ≠ 0
  ok : ∀ j ∈ stepsBefore k, present p j = true → host.mfd_add_devices j = 0
  calls : addCalls s.trace =
    callsOf K p (stepsBefore k) ++ [stepCall K p (host.mfd_add_devices k) k]
  down : teardowns s.trace = []
  reads : busReads s.trace = []
  irq_chip : s.pmic.irq_chip = chip_of K host p
  rev : s.pmic.rev_registers = rev
  log : Event.pr_err (fail_fmt k) [.int (host.mfd_add_devices k)] ∈ s.trace

/-- The teardown calls of the label `bail`: the chip release when a chip was
created. -/
def bailDown (K : Hdr) (host : Host) (p : pm8018_platform_data) : List Event :=
  if chip_of K host p ≠ 0 then [.pm8xxx_irq_exit (chip_of K host p)] else []

/-- The run registered every planned step. -/
structure Succeeded (K : Hdr) (host : Host) (p : pm8018_platform_data)
    (ret : Int) (s : Ctx) : Prop where
  ret : ret = 0
  irq : irq_failed K host p = false
  ok : ∀ k, present p k = true → host.mfd_add_devices k = 0
  alloc : present p .regulators = true → host.kzalloc_regulators = true
  calls : addCalls s.trace = callsOf K p steps
  down : teardowns s.trace = []
  irq_chip : s.pmic.irq_chip = chip_of K host p

/-- The run ended because interrupt initialisation failed. -/
structure IrqFailed (K : Hdr) (host : Host) (p : pm8018_platform_data)
    (ret : Int) (s : Ctx) : Prop where
  irq : irq_failed K host p = true
  ret : ret = PTR_ERR host.pm8xxx_irq_init
  calls : addCalls s.trace = []
  down : teardowns s.trace = []
  irq_chip : s.pmic.irq_chip = 0
  log : Event.pr_err "Failed to init interrupts ret=%ld\n"
    [.int (PTR_ERR host.pm8xxx_irq_init)] ∈ s.trace

/-- The run ended because the registration call of step `k` failed. -/
structure StepFailed (K : Hdr) (host : Host) (p : pm8018_platform_data)
    (k : Step) (ret : Int) (s : Ctx) : Prop where
  irq : irq_failed K host p = false
  guard : present p k = true
  failed : host.mfd_add_devices k ≠ 0
  ok : ∀ j ∈ stepsBefore k, present p j = true → host.mfd_add_devices j = 0
  alloc : k = .regulators → host.kzalloc_regulators = true
  ret : ret = host.mfd_add_devices k
  calls : addCalls s.trace =
    callsOf K p (stepsBefore k) ++ [stepCall K p (host.mfd_add_devices k) k]
  down : teardowns s.trace = bailDown K host p
  irq_chip : s.pmic.irq_chip = 0
  log : Event.pr_err (fail_fmt k) [.int (host.mfd_add_devices k)] ∈ s.trace

/-- The run ended because the regulator cells could not be allocated. -/
structure AllocFailed (K : Hdr) (host : Host) (p : pm8018_platform_data)
    (ret : Int) (s : Ctx) : Prop where
  irq : irq_failed K host p = false
  guard : present p .regulators = true
  alloc : host.kzalloc_regulators = false
  ok : ∀ j ∈ stepsBefore .regulators, present p j = true → host.mfd_add_devices j = 0
  ret : ret = -(K.ENOMEM : Int)
  calls : addCalls s.trace = callsOf K p (stepsBefore .regulators)
  down : teardowns s.trace = bailDown K host p
  irq_chip : s.pmic.irq_chip = 0

/-- The four ways `pm8018_add_subdevices` ends, with what holds in all of
them. -/
structure AddOutcome (K : Hdr) (host : Host) (p : pm8018_platform_data) (rev : Nat)
    (ret : Int) (s : Ctx) : Prop where
  rev : s.pmic.rev_registers = rev
  reads : busReads s.trace = []
  cases : Succeeded K host p ret s ∨ IrqFailed K host p ret s ∨
    (∃ k, StepFailed K host p k ret s) ∨ AllocFailed K host p ret s

/-! ## Lemmas on traces -/

theorem addCalls_append (a b : List Event) : addCalls (a ++ b) = addCalls a ++ addCalls b := by
  simp [addCalls]

theorem teardowns_append (a b : List Event) :
    teardowns (a ++ b) = teardowns a ++ teardowns b := by
  simp [teardowns]

theorem busReads_append (a b : List Event) : busReads (a ++ b) = busReads a ++ busReads b := by
  simp [busReads]

theorem Frame.refl (s : Ctx) : Frame s s :=
  ⟨rfl, rfl, rfl, fun _ => rfl, rfl, rfl, rfl, rfl, rfl⟩

theorem Frame.trans {a b c : Ctx} (h1 : Frame a b) (h2 : Frame b c) : Frame a c :=
  ⟨h2.irq_base.trans h1.irq_base, h2.irq_chip.trans h1.irq_chip, h2.rev.trans h1.rev,
   fun k => (h2.guards k).trans (h1.guards k), h2.num.trans h1.num, h2.regs.trans h1.regs,
   h2.irq.trans h1.irq, h2.down.trans h1.down, h2.reads.trans h1.reads⟩

/-- The shared statement pattern meets the step specification when the step's
guard holds and the context differs from `s0` only in unguarded data. -/
theorem mfd_add_one_spec (K : Hdr) (host : Host) (k : Step) (s0 s : Ctx)
    (hf : Frame s0 s) (htr : s.trace = s0.trace) (hp : present s0.pdata k = true)
    (hk : k ≠ .regulators) :
    StepSpec K host k s0
      (mfd_add_one host k (stepCells K s0.pdata k |>.headD mfd_cell.zero) (fail_fmt k) s) := by
  unfold StepSpec mfd_add_one
  by_cases h : host.mfd_add_devices k = 0
  · left
    refine ⟨_, by simp [h]; rfl, ?_, fun _ => h, ?_⟩
    · exact ⟨hf.irq_base, hf.irq_chip, hf.rev, hf.guards, hf.num, hf.regs, hf.irq,
        by simp [teardowns_append, htr, teardowns, Event.isTeardown],
        by simp [busReads_append, htr, busReads, Event.readAddr]⟩
    · cases k <;> simp_all [addCalls_append, addCalls, Event.addCall, stepCells, hf.irq_base]
  · right
    refine ⟨_, by simp [h]; rfl, ?_, hp, h, ?_, by simp⟩
    · exact ⟨hf.irq_base, hf.irq_chip, hf.rev, hf.guards, hf.num, hf.regs, hf.irq,
        by simp [teardowns_append, htr, teardowns, Event.isTeardown],
        by simp [busReads_append, htr, busReads, Event.readAddr]⟩
    · cases k <;> simp_all [addCalls_append, addCalls, Event.addCall, stepCells, hf.irq_base]

/-- A step whose guard fails falls through and changes nothing. -/
theorem StepSpec.skip (K : Hdr) (host : Host) (k : Step) (s : Ctx)
    (hp : present s.pdata k = false) : StepSpec K host k s (.next s) := by
  left
  exact ⟨s, rfl, Frame.refl s, by simp [hp], by simp [hp]⟩

theorem add_gpio_spec (K : Hdr) (host : Host) (s : Ctx) :
    StepSpec K host .gpio s (add_gpio K host s) := by
  unfold add_gpio
  cases h : s.pdata.gpio_pdata with
  | none => exact StepSpec.skip K host .gpio s (by simp [present, h])
  | some gp =>
    refine mfd_add_one_spec K host .gpio s _ ?_ rfl (by simp [present, h]) (by decide)
    exact ⟨rfl, rfl, rfl, by intro k; cases k <;> simp [present, h], rfl, rfl, rfl, rfl, rfl⟩

theorem add_mpp_spec (K : Hdr) (host : Host) (s : Ctx) :
    StepSpec K host .mpp s (add_mpp K host s) := by
  unfold add_mpp
  cases h : s.pdata.mpp_pdata with
  | none => exact StepSpec.skip K host .mpp s (by simp [present, h])
  | some mp =>
    refine mfd_add_one_spec K host .mpp s _ ?_ rfl (by simp [present, h]) (by decide)
    exact ⟨rfl, rfl, rfl, by intro k; cases k <;> simp [present, h], rfl, rfl, rfl, rfl, rfl⟩

theorem add_rtc_spec (K : Hdr) (host : Host) (s : Ctx) :
    StepSpec K host .rtc s (add_rtc K host s) := by
  unfold add_rtc
  cases h : s.pdata.rtc_pdata with
  | none => exact StepSpec.skip K host .rtc s (by simp [present, h])
  | some _ =>
    exact mfd_add_one_spec K host .rtc s s (Frame.refl s) rfl (by simp [present, h]) (by decide)

theorem add_pwrkey_spec (K : Hdr) (host : Host) (s : Ctx) :
    StepSpec K host .pwrkey s (add_pwrkey K host s) := by
  unfold add_pwrkey
  cases h : s.pdata.pwrkey_pdata with
  | none => exact StepSpec.skip K host .pwrkey s (by simp [present, h])
  | some _ =>
    exact mfd_add_one_spec K host .pwrkey s s (Frame.refl s) rfl (by simp [present, h])
      (by decide)

theorem add_misc_spec (K : Hdr) (host : Host) (s : Ctx) :
    StepSpec K host .misc s (add_misc K host s) := by
  unfold add_misc
  cases h : s.pdata.misc_pdata with
  | none => exact StepSpec.skip K host .misc s (by simp [present, h])
  | some _ =>
    exact mfd_add_one_spec K host .misc s s (Frame.refl s) rfl (by simp [present, h])
      (by decide)

theorem add_debugfs_spec (K : Hdr) (host : Host) (s : Ctx) :
    StepSpec K host .debug s (add_debugfs host s) :=
  mfd_add_one_spec K host .debug s s (Frame.refl s) rfl rfl (by decide)

theorem take_set_succ {α : Type} (l : List α) (i : Nat) (x : α) (h : i < l.length) :
    (l.set i x).take (i + 1) = l.take i ++ [x] := by
  induction l generalizing i with
  | nil => simp at h
  | cons a t ih =>
    cases i with
    | zero => simp
    | succ i =>
      have h2 : i < t.length := by simpa using h
      simp [ih i h2]

/-- The regulator loop runs to its end inside both arrays and leaves the cells
of `regulator_cells` behind. -/
theorem fill_regulators_eq (K : Hdr) (regs : List pm8018_regulator_platform_data) :
    ∀ (count i : Nat) (cells : List mfd_cell), cells.length = i + count →
      i + count ≤ regs.length →
      (∀ j, i ≤ j → j < i + count → cells[j]? = some mfd_cell.zero) →
      fill_regulators K regs count i cells =
        some (cells.take i ++ regulator_cells K i ((regs.drop i).take count)) := by
  intro count
  induction count with
  | zero =>
    intro i cells hl _ _
    have hl2 : cells.length ≤ i := by omega
    simp [fill_regulators, regulator_cells, List.take_of_length_le hl2]
  | succ n ih =>
    intro i cells hl hr hz
    have hi : i < regs.length := by omega
    have hc : i < cells.length := by omega
    have h1 : regs[i]? = some regs[i] := List.getElem?_eq_getElem hi
    have h2 : cells[i]? = some mfd_cell.zero := hz i (le_refl i) (by omega)
    rw [fill_regulators, h1, h2]
    simp only
    rw [ih (i + 1) _ (by simp; omega) (by omega)]
    · rw [take_set_succ _ _ _ hc, List.drop_eq_getElem_cons hi]
      simp [regulator_cells]
    · intro j hj1 hj2
      rw [List.getElem?_set_ne (by omega)]
      exact hz j (by omega) (by omega)

theorem fill_regulators_fresh (K : Hdr) (regs : List pm8018_regulator_platform_data)
    (n : Nat) (hn : n ≤ regs.length) :
    fill_regulators K regs n 0 (List.replicate n mfd_cell.zero) =
      some (regulator_cells K 0 (regs.take n)) := by
  rw [fill_regulators_eq K regs n 0 _ (by simp) (by omega)]
  · simp
  · intro j _ hj
    rw [List.getElem?_replicate]
    simp
    omega

theorem add_regulators_spec (K : Hdr) (host : Host) (s : Ctx) (hwf : WellFormed s.pdata) :
    RegSpec K host s (add_regulators K host s) := by
  unfold add_regulators
  by_cases hn : 0 < s.pdata.num_regulators
  · cases hr : s.pdata.regulator_pdatas with
    | none =>
      left
      exact ⟨s, by simp [hn], Frame.refl s, by simp [present, hr], by simp [present, hr]⟩
    | some regs =>
      have hp : present s.pdata .regulators = true := by simp [present, hn, hr]
      have hlen : s.pdata.num_regulators.toNat ≤ regs.length := by
        have := hwf regs hr hn
        omega
      have hcells : stepCells K s.pdata .regulators =
          regulator_cells K 0 (regs.take s.pdata.num_regulators.toNat) := by
        simp [stepCells, hr]
      have hframe : ∀ (t : List Event) (m : Option (List mfd_cell)),
          teardowns t = [] → busReads t = [] →
          Frame s { s with pmic := { s.pmic with mfd_regulators := m },
                           trace := s.trace ++ t } := by
        intro t m h1 h2
        exact ⟨rfl, rfl, rfl, fun _ => rfl, rfl, rfl, rfl,
          by simp [teardowns_append, h1], by simp [busReads_append, h2]⟩
      simp only [hn, decide_True, fill_regulators_fresh K regs _ hlen]
      by_cases hk : host.kzalloc_regulators = false
      · right; right
        refine ⟨_, by simp [hk]; rfl, ?_, hp, hk, ?_⟩
        · exact hframe _ s.pmic.mfd_regulators (by simp [teardowns, Event.isTeardown])
            (by simp [busReads, Event.readAddr])
        · simp [addCalls_append, addCalls, Event.addCall]
      · have hk2 : host.kzalloc_regulators = true := by simpa using hk
        by_cases h : host.mfd_add_devices .regulators = 0
        · left
          refine ⟨_, by simp [hk2, h]; rfl, ?_, fun _ => ⟨hk2, h⟩, ?_⟩
          · have := hframe [.kzalloc .mfd_regulators true,
              .mfd_add_devices .regulators
                (regulator_cells K 0 (regs.take s.pdata.num_regulators.toNat))
                s.pdata.num_regulators s.irq_base 0]
              (some (regulator_cells K 0 (regs.take s.pdata.num_regulators.toNat)))
              (by simp [teardowns, Event.isTeardown]) (by simp [busReads, Event.readAddr])
            simpa using this
          · simp [addCalls_append, addCalls, Event.addCall, hp, hcells]
        · right; left
          refine ⟨_, by simp [hk2, h]; rfl, ?_, hp, hk2, h, ?_, by simp [fail_fmt]⟩
          · have := hframe [.kzalloc .mfd_regulators true,
              .mfd_add_devices .regulators
                (regulator_cells K 0 (regs.take s.pdata.num_regulators.toNat))
                s.pdata.num_regulators s.irq_base (host.mfd_add_devices .regulators),
              .pr_err "Failed to add regulator subdevices ret=%d\n"
                [.int (host.mfd_add_devices .regulators)],
              .kfree .mfd_regulators]
              s.pmic.mfd_regulators
              (by simp [teardowns, Event.isTeardown]) (by simp [busReads, Event.readAddr])
            simpa using this
          · simp [addCalls_append, addCalls, Event.addCall, hcells]
  · left
    refine ⟨s, by simp [hn], Frame.refl s, by simp [present, hn], by simp [present, hn]⟩

theorem callsOf_snoc (K : Hdr) (p : pm8018_platform_data) (l : List Step) (k : Step) :
    callsOf K p (l ++ [k]) =
      callsOf K p l ++ (if present p k = true then [stepCall K p 0 k] else []) := by
  unfold callsOf
  by_cases h : present p k = true <;> simp [List.filter_append, h]

theorem stepCells_congr (K : Hdr) (p q : pm8018_platform_data) (k : Step)
    (hn : q.num_regulators = p.num_regulators)
    (hr : q.regulator_pdatas = p.regulator_pdatas) :
    stepCells K q k = stepCells K p k := by
  cases k <;> simp [stepCells, hn, hr]

/-- The interrupt block either returns the error of `pm8xxx_irq_init` or falls
through with the invariant of the empty list of steps. -/
theorem add_irq_spec (K : Hdr) (host : Host) (p : pm8018_platform_data) (pmic : pm8018)
    (h0 : pmic.irq_chip = 0) :
    (∃ s', add_irq K host { pdata := p, pmic := pmic, irq_base := 0, trace := [] } =
        .ret (PTR_ERR host.pm8xxx_irq_init) s' ∧
        s'.pmic.rev_registers = pmic.rev_registers ∧ busReads s'.trace = [] ∧
        IrqFailed K host p (PTR_ERR host.pm8xxx_irq_init) s') ∨
    (irq_failed K host p = false ∧
      ∃ s', add_irq K host { pdata := p, pmic := pmic, irq_base := 0, trace := [] } =
        .next s' ∧ Inv K host p pmic.rev_registers [] s') := by
  unfold add_irq
  cases hi : p.irq_pdata with
  | none =>
    right
    refine ⟨by simp [irq_failed, hi], _, rfl, ?_⟩
    exact ⟨rfl, rfl, rfl, by simp [irq_base_of, hi], by simp [chip_of, hi, h0], rfl,
      fun _ => rfl, rfl, rfl, by simp⟩
  | some ip =>
    by_cases he : IS_ERR K host.pm8xxx_irq_init = true
    · left
      refine ⟨_, by simp [he]; rfl, rfl, by simp [busReads, Event.readAddr], ?_⟩
      exact ⟨by simp [irq_failed, hi, he], rfl, by simp [addCalls, Event.addCall],
        by simp [teardowns, Event.isTeardown], h0, by simp⟩
    · right
      refine ⟨by simp [irq_failed, hi, he], _, by simp [he]; rfl, ?_⟩
      exact ⟨by simp [addCalls, Event.addCall, callsOf], by simp [teardowns, Event.isTeardown],
        by simp [busReads, Event.readAddr], by simp [irq_base_of, hi],
        by simp [chip_of, hi, he], rfl,
        by intro k; cases k <;> simp [present], rfl, rfl, by simp⟩

/-- One single-cell step carries the invariant forward or ends at `bail` with
the facts of a failed step. -/
theorem inv_step (K : Hdr) (host : Host) (p : pm8018_platform_data) (rev : Nat)
    (k : Step) (s : Ctx) (out : Flow)
    (hinv : Inv K host p rev (stepsBefore k) s) (hspec : StepSpec K host k s out)
    (hk : k ≠ .regulators) :
    (∃ s', out = .next s' ∧ Inv K host p rev (stepsBefore k ++ [k]) s') ∨
    (∃ s', out = .bail (host.mfd_add_devices k) s' ∧ BailFacts K host p rev k s') := by
  have hcells : stepCells K s.pdata k = stepCells K p k :=
    stepCells_congr K p s.pdata k hinv.num hinv.regs
  have hcount : stepCount p k = 1 := by cases k <;> simp_all [stepCount]
  rcases hspec with ⟨s', ho, hf, hok, hc⟩ | ⟨s', ho, hf, hp, hne, hc, hlog⟩
  · left
    refine ⟨s', ho, ?_⟩
    refine ⟨?_, hf.down.trans hinv.down, hf.reads.trans hinv.reads,
      hf.irq_base.trans hinv.irq_base, hf.irq_chip.trans hinv.irq_chip,
      hf.rev.trans hinv.rev, fun j => (hf.guards j).trans (hinv.guards j),
      hf.num.trans hinv.num, hf.regs.trans hinv.regs, ?_⟩
    · rw [hc, hinv.calls, callsOf_snoc, hinv.guards k, hcells, hinv.irq_base]
      simp [stepCall, hcount]
    · intro j hj hpj
      rcases List.mem_append.mp hj with h | h
      · exact hinv.ok j h hpj
      · have : j = k := by simpa using h
        subst this
        exact hok (by rw [hinv.guards j]; exact hpj)
  · right
    refine ⟨s', ho, ?_⟩
    refine ⟨by rw [← hinv.guards k]; exact hp, hne, hinv.ok, ?_,
      hf.down.trans hinv.down, hf.reads.trans hinv.reads,
      hf.irq_chip.trans hinv.irq_chip, hf.rev.trans hinv.rev, hlog⟩
    rw [hc, hinv.calls, hcells, hinv.irq_base]
    simp [stepCall, hcount]

/-- The label `bail` after a failed step gives the outcome `StepFailed`. -/
theorem bail_step_failed (K : Hdr) (host : Host) (p : pm8018_platform_data) (rev : Nat)
    (k : Step) (s : Ctx) (hirq : irq_failed K host p = false)
    (halloc : k = .regulators → host.kzalloc_regulators = true)
    (hb : BailFacts K host p rev k s) :
    AddOutcome K host p rev (bail (host.mfd_add_devices k) s).1
      (bail (host.mfd_add_devices k) s).2 := by
  unfold bail
  by_cases hc : s.pmic.irq_chip = 0
  · have hc2 : chip_of K host p = 0 := by rw [← hb.irq_chip]; exact hc
    simp only [hc, ne_eq, not_true_eq_false, if_false]
    exact ⟨hb.rev, hb.reads, Or.inr (Or.inr (Or.inl ⟨k, hirq, hb.guard, hb.failed, hb.ok,
      halloc, rfl, hb.calls, by simp [bailDown, hc2, hb.down], hc, hb.log⟩))⟩
  · have hc2 : chip_of K host p ≠ 0 := by rw [← hb.irq_chip]; exact hc
    simp only [hc, ne_eq, not_false_eq_true, if_true]
    refine ⟨hb.rev, by rw [busReads_append, hb.reads]; simp [busReads, Event.readAddr],
      Or.inr (Or.inr (Or.inl ⟨k, hirq, hb.guard, hb.failed, hb.ok, halloc, rfl, ?_, ?_, rfl, ?_⟩))⟩
    · rw [addCalls_append, hb.calls]
      simp [addCalls, Event.addCall]
    · rw [teardowns_append, hb.down, hb.irq_chip]
      simp [bailDown, hc2, teardowns, Event.isTeardown]
    · simp [hb.log]

/-- The regulator step after the six single-cell steps gives one of the
outcomes of `pm8018_add_subdevices`. -/
theorem regs_outcome (K : Hdr) (host : Host) (p : pm8018_platform_data) (rev : Nat)
    (s : Ctx) (out : Flow) (hirq : irq_failed K host p = false)
    (hinv : Inv K host p rev (stepsBefore .regulators) s) (hspec : RegSpec K host s out) :
    (∃ s', out = .next s' ∧ AddOutcome K host p rev 0 s') ∨
    (∃ r s', out = .bail r s' ∧ AddOutcome K host p rev (bail r s').1 (bail r s').2) := by
  have hcells : stepCells K s.pdata .regulators = stepCells K p .regulators :=
    stepCells_congr K p s.pdata .regulators hinv.num hinv.regs
  rcases hspec with ⟨s', ho, hf, hok, hc⟩ | ⟨s', ho, hf, hp, hk, hne, hc, hlog⟩ |
      ⟨s', ho, hf, hp, hk, hc⟩
  · left
    refine ⟨s', ho, hf.rev.trans hinv.rev, hf.reads.trans hinv.reads, Or.inl ?_⟩
    rw [hinv.guards] at hok
    refine ⟨rfl, hirq, ?_, fun h => (hok h).1, ?_, hf.down.trans hinv.down,
      hf.irq_chip.trans hinv.irq_chip⟩
    · intro k hpk
      by_cases hkr : k = .regulators
      · subst hkr; exact (hok hpk).2
      · exact hinv.ok k (by cases k <;> simp_all [stepsBefore]) hpk
    · have hsteps : steps = stepsBefore .regulators ++ [.regulators] := rfl
      rw [hc, hinv.calls, hsteps, callsOf_snoc, hinv.guards, hcells, hinv.irq_base, hinv.num]
      simp [stepCall, stepCount]
  · right
    refine ⟨_, s', ho, ?_⟩
    refine bail_step_failed K host p rev .regulators s' hirq (fun _ => hk) ?_
    refine ⟨by rw [← hinv.guards]; exact hp, hne, hinv.ok, ?_, hf.down.trans hinv.down,
      hf.reads.trans hinv.reads, hf.irq_chip.trans hinv.irq_chip, hf.rev.trans hinv.rev, hlog⟩
    rw [hc, hinv.calls, hcells, hinv.irq_base, hinv.num]
    simp [stepCall, stepCount]
  · right
    refine ⟨_, s', ho, ?_⟩
    have hp2 : present p .regulators = true := by rw [← hinv.guards]; exact hp
    have hchip : s'.pmic.irq_chip = chip_of K host p := hf.irq_chip.trans hinv.irq_chip
    have hcalls : addCalls s'.trace = callsOf K p (stepsBefore .regulators) :=
      hc.trans hinv.calls
    have hdown : teardowns s'.trace = [] := hf.down.trans hinv.down
    have hreads : busReads s'.trace = [] := hf.reads.trans hinv.reads
    unfold bail
    by_cases hz : s'.pmic.irq_chip = 0
    · have hz2 : chip_of K host p = 0 := by rw [← hchip]; exact hz
      simp only [hz, ne_eq, not_true_eq_false, if_false]
      exact ⟨hf.rev.trans hinv.rev, hreads, Or.inr (Or.inr (Or.inr
        ⟨hirq, hp2, hk, hinv.ok, rfl, hcalls, by simp [bailDown, hz2, hdown], hz⟩))⟩
    · have hz2 : chip_of K host p ≠ 0 := by rw [← hchip]; exact hz
      simp only [hz, ne_eq, not_false_eq_true, if_true]
      refine ⟨hf.rev.trans hinv.rev,
        by rw [busReads_append, hreads]; simp [busReads, Event.readAddr],
        Or.inr (Or.inr (Or.inr ⟨hirq, hp2, hk, hinv.ok, rfl, ?_, ?_, rfl⟩))⟩
      · rw [addCalls_append, hcalls]
        simp [addCalls, Event.addCall]
      · rw [teardowns_append, hdown, hchip]
        simp [bailDown, hz2, teardowns, Event.isTeardown]

/-- Every run of `pm8018_add_subdevices` on a well-formed configuration and a
fresh chip structure returns, in one of the four described ways. -/
theorem add_subdevices_outcome (K : Hdr) (host : Host) (p : pm8018_platform_data)
    (pmic : pm8018) (hwf : WellFormed p) (h0 : pmic.irq_chip = 0) :
    ∃ ret s, pm8018_add_subdevices K host p pmic = some (ret, s) ∧
      AddOutcome K host p pmic.rev_registers ret s := by
  unfold pm8018_add_subdevices add_blocks
  rcases add_irq_spec K host p pmic h0 with ⟨s1, h1, hrev, hreads, hfail⟩ | ⟨hirq, s1, h1, i1⟩
  · rw [h1]
    exact ⟨_, _, rfl, hrev, hreads, Or.inr (Or.inl hfail)⟩
  rw [h1]
  simp only [Flow.andThen]
  rcases inv_step K host p _ .gpio s1 _ i1 (add_gpio_spec K host s1) (by decide) with
    ⟨s2, h2, i2⟩ | ⟨s2, h2, hb⟩
  swap
  · rw [h2]
    exact ⟨_, _, rfl, bail_step_failed K host p _ .gpio s2 hirq (by simp) hb⟩
  rw [h2]
  simp only [Flow.andThen]
  rcases inv_step K host p _ .mpp s2 _ i2 (add_mpp_spec K host s2) (by decide) with
    ⟨s3, h3, i3⟩ | ⟨s3, h3, hb⟩
  swap
  · rw [h3]
    exact ⟨_, _, rfl, bail_step_failed K host p _ .mpp s3 hirq (by simp) hb⟩
  rw [h3]
  simp only [Flow.andThen]
  rcases inv_step K host p _ .rtc s3 _ i3 (add_rtc_spec K host s3) (by decide) with
    ⟨s4, h4, i4⟩ | ⟨s4, h4, hb⟩
  swap
  · rw [h4]
    exact ⟨_, _, rfl, bail_step_failed K host p _ .rtc s4 hirq (by simp) hb⟩
  rw [h4]
  simp only [Flow.andThen]
  rcases inv_step K host p _ .pwrkey s4 _ i4 (add_pwrkey_spec K host s4) (by decide) with
    ⟨s5, h5, i5⟩ | ⟨s5, h5, hb⟩
  swap
  · rw [h5]
    exact ⟨_, _, rfl, bail_step_failed K host p _ .pwrkey s5 hirq (by simp) hb⟩
  rw [h5]
  simp only [Flow.andThen]
  rcases inv_step K host p _ .misc s5 _ i5 (add_misc_spec K host s5) (by decide) with
    ⟨s6, h6, i6⟩ | ⟨s6, h6, hb⟩
  swap
  · rw [h6]
    exact ⟨_, _, rfl, bail_step_failed K host p _ .misc s6 hirq (by simp) hb⟩
  rw [h6]
  simp only [Flow.andThen]
  rcases inv_step K host p _ .debug s6 _ i6 (add_debugfs_spec K host s6) (by decide) with
    ⟨s7, h7, i7⟩ | ⟨s7, h7, hb⟩
  swap
  · rw [h7]
    exact ⟨_, _, rfl, bail_step_failed K host p _ .debug s7 hirq (by simp) hb⟩
  rw [h7]
  simp only [Flow.andThen]
  have hwf7 : WellFormed s7.pdata := by
    intro regs hr hn
    rw [i7.num] at hn ⊢
    rw [i7.regs] at hr
    exact hwf regs hr hn
  rcases regs_outcome K host p _ s7 _ hirq i7 (add_regulators_spec K host s7 hwf7) with
    ⟨s8, h8, ho⟩ | ⟨r, s8, h8, ho⟩
  · rw [h8]
    exact ⟨_, _, rfl, ho⟩
  · rw [h8]
    exact ⟨_, _, rfl, ho⟩

/-! ## Lemmas on `pm8018_probe` -/

theorem probe_revision_name_total (K : Hdr) (revision : Int) :
    ∃ n, probe_revision_name K revision = some n := by
  unfold probe_revision_name
  by_cases h : 0 ≤ revision ∧ revision < (ARRAY_SIZE_pm8018_rev_names K : Int)
  · have hlt : revision.toNat < (pm8018_rev_names K).length := by
      unfold ARRAY_SIZE_pm8018_rev_names at h
      omega
    refine ⟨(pm8018_rev_names K)[revision.toNat], ?_⟩
    rw [if_pos h]
    exact List.getElem?_eq_getElem hlt
  · refine ⟨some "unknown", ?_⟩
    rw [if_neg h]

theorem probe_print_version_total (K : Hdr) (pmic : pm8018) :
    ∃ evs, probe_print_version K (some { pm_chip_data := some pmic }) = some evs ∧
      addCalls evs = [] ∧ teardowns evs = [] ∧ busReads evs = [] := by
  obtain ⟨n, hn⟩ := probe_revision_name_total K
    ((pmic.rev_registers &&& PM8018_REVISION_MASK : Nat) : Int)
  unfold probe_print_version
  simp only [pm8018_get_version, pm8018_get_revision, hn]
  split_ifs <;>
    first
    | exact ⟨[.pr_info "PMIC version: PM8018 rev %s\n" [.str n]], rfl, rfl, rfl, rfl⟩
    | exact ⟨[.WARN_ON], rfl, rfl, rfl, rfl⟩

/-- When the kernel lets probe reach `pm8018_add_subdevices`, probe returns what
that call returns, and its trace is the trace of that call between a prefix of
two bus reads and log lines and a suffix that, on failure, holds the calls of
the label `err`. -/
theorem probe_main (K : Hdr) (host : Host) (pdev : platform_device)
    (pdata : pm8018_platform_data) (hpd : pdev.platform_data = some pdata)
    (hr : Reaches host) (hwf : WellFormed pdata) :
    ∃ ret s pre post r,
      pm8018_add_subdevices K host pdata
        (fresh_pmic (revision_word (host.msm_ssbi_read REG_HWREV).2
          (host.msm_ssbi_read REG_HWREV_2).2)) = some (ret, s) ∧
      AddOutcome K host pdata (revision_word (host.msm_ssbi_read REG_HWREV).2
          (host.msm_ssbi_read REG_HWREV_2).2) ret s ∧
      pm8018_probe K host pdev = some r ∧
      r.rc = ret ∧ r.pmic = some s.pmic ∧ r.trace = pre ++ s.trace ++ post ∧
      addCalls pre = [] ∧ teardowns pre = [] ∧ busReads pre = [REG_HWREV, REG_HWREV_2] ∧
      addCalls post = [] ∧ busReads post = [] ∧
      (ret ≠ 0 →
        post = [.pr_err "Cannot add subdevices rc=%d\n" [.int ret], .mfd_remove_devices,
          .platform_set_drvdata false, .kfree .pmic] ∧
        r.pmic_freed = true ∧ r.pdev.drvdata = none) ∧
      (ret = 0 → teardowns post = [] ∧ r.pmic_freed = false ∧
        r.pdev.drvdata = some { pm_chip_data := some s.pmic }) := by
  obtain ⟨ret, s, hadd, hout⟩ := add_subdevices_outcome K host pdata
    (fresh_pmic (revision_word (host.msm_ssbi_read REG_HWREV).2
      (host.msm_ssbi_read REG_HWREV_2).2)) hwf rfl
  obtain ⟨evs, hevs, he1, he2, he3⟩ := probe_print_version_total K
    (fresh_pmic (revision_word (host.msm_ssbi_read REG_HWREV).2
      (host.msm_ssbi_read REG_HWREV_2).2))
  obtain ⟨hk, h1, h2⟩ := hr
  have hadd0 := hadd
  simp only [fresh_pmic, revision_word] at hadd hevs
  have hpre : ∃ pre : List Event, pre =
      [.kzalloc .pmic true, .msm_ssbi_read REG_HWREV 0,
       .pr_info "PMIC revision 1: %02X\n" [.int (((host.msm_ssbi_read REG_HWREV).2 % 256 : Nat) : Int)],
       .msm_ssbi_read REG_HWREV_2 0,
       .pr_info "PMIC revision 2: %02X\n"
         [.int (((host.msm_ssbi_read REG_HWREV_2).2 % 256 : Nat) : Int)],
       .platform_set_drvdata true] ++ evs := ⟨_, rfl⟩
  obtain ⟨pre, hpre⟩ := hpre
  have hp1 : addCalls pre = [] := by
    rw [hpre, addCalls_append, he1]; rfl
  have hp2 : teardowns pre = [] := by
    rw [hpre, teardowns_append, he2]; rfl
  have hp3 : busReads pre = [REG_HWREV, REG_HWREV_2] := by
    rw [hpre, busReads_append, he3]; rfl
  by_cases hz : ret = 0
  · subst hz
    by_cases hc : s.pmic.irq_chip = 0
    · refine ⟨0, s, pre, [.WARN_ON],
        { rc := 0
          pdev := { platform_data := some s.pdata,
                    drvdata := some { pm_chip_data := some s.pmic } }
          pmic := some s.pmic, pmic_freed := false
          trace := pre ++ s.trace ++ [.WARN_ON] },
        hadd0, hout, ?_, rfl, rfl, rfl, hp1, hp2, hp3, rfl, rfl, by simp,
        fun _ => ⟨rfl, rfl, rfl⟩⟩
      unfold pm8018_probe
      simp only [hpd, hk, h1, h2, ne_eq, not_true_eq_false, if_false, hevs, hadd]
      simp [hc, hpre]
    · refine ⟨0, s, pre, [],
        { rc := 0
          pdev := { platform_data := some s.pdata,
                    drvdata := some { pm_chip_data := some s.pmic } }
          pmic := some s.pmic, pmic_freed := false
          trace := pre ++ s.trace },
        hadd0, hout, ?_, rfl, rfl, by simp, hp1, hp2, hp3, rfl, rfl, by simp,
        fun _ => ⟨rfl, rfl, rfl⟩⟩
      unfold pm8018_probe
      simp only [hpd, hk, h1, h2, ne_eq, not_true_eq_false, if_false, hevs, hadd]
      simp [hc, hpre]
  · refine ⟨ret, s, pre,
      [.pr_err "Cannot add subdevices rc=%d\n" [.int ret], .mfd_remove_devices,
        .platform_set_drvdata false, .kfree .pmic],
      { rc := ret
        pdev := { platform_data := some s.pdata, drvdata := none }
        pmic := some s.pmic, pmic_freed := true
        trace := pre ++ s.trace ++
          [.pr_err "Cannot add subdevices rc=%d\n" [.int ret], .mfd_remove_devices,
            .platform_set_drvdata false, .kfree .pmic] },
      hadd0, hout, ?_, rfl, rfl, rfl, hp1, hp2, hp3, rfl, rfl,
      fun _ => ⟨rfl, rfl, rfl⟩, fun h => absurd h hz⟩
    unfold pm8018_probe
    simp only [hpd, hk, h1, h2, ne_eq, not_true_eq_false, if_false, hevs, hadd]
    simp [hz, hpre, err, err_read_rev]

theorem mem_addCalls (tr : List Event) (k : Step) (cells : List mfd_cell) (n b ret : Int) :
    Event.mfd_add_devices k cells n b ret ∈ tr ↔
      (⟨k, cells, n, b, ret⟩ : AddCall) ∈ addCalls tr := by
  unfold addCalls
  rw [List.mem_filterMap]
  constructor
  · intro h
    exact ⟨_, h, rfl⟩
  · rintro ⟨e, he, heq⟩
    cases e <;> simp [Event.addCall] at heq
    obtain ⟨h1, h2, h3, h4, h5⟩ := heq
    subst h1 h2 h3 h4 h5
    exact he

theorem mem_callsOf (K : Hdr) (p : pm8018_platform_data) (l : List Step) (c : AddCall)
    (h : c ∈ callsOf K p l) : c.ret = 0 ∧ c.site ∈ l ∧ present p c.site = true := by
  unfold callsOf at h
  rw [List.mem_map] at h
  obtain ⟨k, hk, rfl⟩ := h
  rw [List.mem_filter] at hk
  exact ⟨rfl, hk.1, hk.2⟩

theorem callsOf_sites (K : Hdr) (p : pm8018_platform_data) (l : List Step) :
    (callsOf K p l).map (fun c => c.site) = l.filter (present p) := by
  unfold callsOf
  rw [List.map_map]
  have : ((fun c : AddCall => c.site) ∘ stepCall K p 0) = id := by
    funext k
    rfl
  rw [this, List.map_id]

/-- A failed registration call in the trace means the run ended at that call. -/
theorem failed_call_cases (K : Hdr) (host : Host) (p : pm8018_platform_data) (rev : Nat)
    (ret : Int) (s : Ctx) (c : AddCall) (hout : AddOutcome K host p rev ret s)
    (hc : c ∈ addCalls s.trace) (hne : c.ret ≠ 0) :
    StepFailed K host p c.site ret s ∧ c = stepCall K p (host.mfd_add_devices c.site) c.site := by
  rcases hout.cases with h | h | ⟨k, h⟩ | h
  · rw [h.calls] at hc
    exact absurd (mem_callsOf K p _ c hc).1 hne
  · rw [h.calls] at hc
    cases hc
  · rw [h.calls, List.mem_append] at hc
    rcases hc with hc | hc
    · exact absurd (mem_callsOf K p _ c hc).1 hne
    · have hck : c = stepCall K p (host.mfd_add_devices k) k := by simpa using hc
      have hsite : c.site = k := by rw [hck]; rfl
      rw [hsite]
      exact ⟨h, hck⟩
  · rw [h.calls] at hc
    exact absurd (mem_callsOf K p _ c hc).1 hne

/-- When the kernel does not let probe reach `pm8018_add_subdevices`, probe
returns without a registration or teardown call. -/
theorem probe_early (K : Hdr) (host : Host) (pdev : platform_device)
    (pdata : pm8018_platform_data) (hpd : pdev.platform_data = some pdata)
    (hr : ¬ Reaches host) :
    ∃ r, pm8018_probe K host pdev = some r ∧ addCalls r.trace = [] ∧
      teardowns r.trace = [] := by
  unfold pm8018_probe
  rw [hpd]
  by_cases hk : host.kzalloc_pmic = false
  · simp only [hk, if_true]
    exact ⟨_, rfl, rfl, rfl⟩
  · have hk2 : host.kzalloc_pmic = true := by simpa using hk
    by_cases h1 : (host.msm_ssbi_read REG_HWREV).1 = 0
    · by_cases h2 : (host.msm_ssbi_read REG_HWREV_2).1 = 0
      · exact absurd ⟨hk2, h1, h2⟩ hr
      · simp only [hk, if_false, h1, ne_eq, not_true_eq_false, h2, not_false_eq_true, if_true]
        exact ⟨_, rfl, rfl, rfl⟩
    · simp only [hk, if_false, ne_eq, h1, not_false_eq_true, if_true]
      exact ⟨_, rfl, rfl, rfl⟩

theorem count_remove_teardowns (tr : List Event) :
    tr.count .mfd_remove_devices = (teardowns tr).count .mfd_remove_devices := by
  unfold teardowns
  rw [List.count_filter]
  rfl

theorem countP_exit_teardowns (tr : List Event) :
    tr.countP Event.isIrqExit = (teardowns tr).countP Event.isIrqExit := by
  unfold teardowns
  rw [List.countP_filter]
  congr 1
  funext e
  cases e <;> rfl

theorem bailDown_counts (K : Hdr) (host : Host) (p : pm8018_platform_data) :
    (bailDown K host p).count .mfd_remove_devices = 0 ∧
    (bailDown K host p).countP Event.isIrqExit = (if chip_of K host p ≠ 0 then 1 else 0) := by
  unfold bailDown
  by_cases h : chip_of K host p = 0
  · simp [h]
  · simp [h, Event.isIrqExit]

/-! ## The revision probe -/

theorem or_shift_eq (low high : Nat) (hl : low < 256) :
    low ||| (high <<< 8) = 256 * high + low := by
  have h := Nat.mul_add_lt_is_or (i := 8) (b := low) (by simpa using hl) high
  rw [Nat.lor_comm, Nat.shiftLeft_eq, Nat.mul_comm high (2 ^ 8)]
  simpa using h.symm

theorem revision_word_eq (low high : Nat) (hl : low < 256) (hh : high < 256) :
    revision_word low high = low ||| (high <<< 8) := by
  unfold revision_word BITS_PER_BYTE
  rw [Nat.mod_eq_of_lt hl, Nat.mod_eq_of_lt hh, or_shift_eq low high hl]
  omega

/-- C7: when both revision reads succeed and return the bytes `low` (from
`REG_HWREV`) and `high` (from `REG_HWREV_2`), `pm8018_probe` returns, the two
bus reads it made are `REG_HWREV` then `REG_HWREV_2`, and the revision word it
stored is `low | (high << 8)`: below `2^16`, with low byte `low` and high byte
`high`. -/
theorem C7_revision_word (K : Hdr) (host : Host) (pdev : platform_device)
    (pdata : pm8018_platform_data) (low high : Nat)
    (hpd : pdev.platform_data = some pdata) (hwf : WellFormed pdata)
    (hk : host.kzalloc_pmic = true)
    (h1 : host.msm_ssbi_read REG_HWREV = (0, low))
    (h2 : host.msm_ssbi_read REG_HWREV_2 = (0, high))
    (hl : low < 256) (hh : high < 256) :
    ∃ r pmic, pm8018_probe K host pdev = some r ∧ r.pmic = some pmic ∧
      busReads r.trace = [REG_HWREV, REG_HWREV_2] ∧
      pmic.rev_registers = low ||| (high <<< 8) ∧
      pmic.rev_registers < 2 ^ 16 ∧
      pmic.rev_registers % 256 = low ∧
      pmic.rev_registers / 256 = high := by
  obtain ⟨ret, s, pre, post, r, _, hout, hp, _, hpm, htr, _, _, hb, _, hb2, _, _⟩ :=
    probe_main K host pdev pdata hpd ⟨hk, by rw [h1], by rw [h2]⟩ hwf
  have hrev : s.pmic.rev_registers = low ||| (high <<< 8) := by
    rw [hout.rev, h1, h2]
    exact revision_word_eq low high hl hh
  refine ⟨r, s.pmic, hp, hpm, ?_, hrev, ?_, ?_, ?_⟩
  · rw [htr, busReads_append, busReads_append, hb, hb2, hout.reads]
    rfl
  · rw [hrev, or_shift_eq low high hl]; omega
  · rw [hrev, or_shift_eq low high hl]; omega
  · rw [hrev, or_shift_eq low high hl]; omega

/-- Witness for C7: the kernel `host_ok` returns the bytes `0xF3` and `0x08`. -/
theorem C7_revision_word_witness :
    ∃ r pmic, pm8018_probe msm_hdr host_ok (device_of board_rtc_misc) = some r ∧
      r.pmic = some pmic ∧
      busReads r.trace = [REG_HWREV, REG_HWREV_2] ∧
      pmic.rev_registers = 0xF3 ||| (0x08 <<< 8) ∧
      pmic.rev_registers < 2 ^ 16 ∧
      pmic.rev_registers % 256 = 0xF3 ∧
      pmic.rev_registers / 256 = 0x08 :=
  C7_revision_word msm_hdr host_ok (device_of board_rtc_misc) board_rtc_misc 0xF3 0x08 rfl
    (by decide) rfl rfl rfl (by decide) (by decide)

/-- C8: for every revision word, `pm8018_get_version` returns a value, which is
`PM8XXX_VERSION_8018` exactly when the word masked with `0xFFF0` is `0x08F0` and
the sentinel `-ENODEV` otherwise; `pm8018_get_revision` returns the low nibble;
the bytes `0x08` (low) and `0xF0` (high) give the word `0xF008`, which is not
the known family. -/
theorem C8_identify (K : Hdr) (pmic : pm8018) (hE : 0 < K.ENODEV) :
    (pm8018_get_version K (some { pm_chip_data := some pmic }) =
        some (K.PM8XXX_VERSION_8018 : Int) ↔
      pmic.rev_registers &&& 0xFFF0 = 0x08F0) ∧
    (pmic.rev_registers &&& 0xFFF0 ≠ 0x08F0 →
      pm8018_get_version K (some { pm_chip_data := some pmic }) =
        some (-(K.ENODEV : Int))) ∧
    pm8018_get_revision (some { pm_chip_data := some pmic }) =
      some ((pmic.rev_registers &&& 0x000F : Nat) : Int) ∧
    (pmic.rev_registers = revision_word 0x08 0xF0 →
      pmic.rev_registers = 0xF008 ∧
      pm8018_get_version K (some { pm_chip_data := some pmic }) =
        some (-(K.ENODEV : Int))) := by
  have hne : -(K.ENODEV : Int) ≠ (K.PM8XXX_VERSION_8018 : Int) := by omega
  simp only [pm8018_get_version, pm8018_get_revision, PM8018_VERSION_MASK,
    PM8018_VERSION_VALUE, PM8018_REVISION_MASK]
  refine ⟨?_, ?_, trivial, ?_⟩
  · by_cases h : pmic.rev_registers &&& 0xFFF0 = 0x08F0
    · simp [h]
    · simp [h, hne]
  · intro h
    simp [h]
  · intro h
    have h2 : revision_word 0x08 0xF0 = 0xF008 := by decide
    have h3 : (0xF008 &&& 0xFFF0 : Nat) ≠ 0x08F0 := by decide
    rw [h, h2]
    exact ⟨rfl, by rw [if_neg h3]⟩

/-- Witness for C8: the word `0x08F3` with the constants of `msm_hdr`. -/
theorem C8_identify_witness :
    (pm8018_get_version msm_hdr (some { pm_chip_data := some (fresh_pmic 0x08F3) }) =
        some (msm_hdr.PM8XXX_VERSION_8018 : Int) ↔
      (fresh_pmic 0x08F3).rev_registers &&& 0xFFF0 = 0x08F0) ∧
    ((fresh_pmic 0x08F3).rev_registers &&& 0xFFF0 ≠ 0x08F0 →
      pm8018_get_version msm_hdr (some { pm_chip_data := some (fresh_pmic 0x08F3) }) =
        some (-(msm_hdr.ENODEV : Int))) ∧
    pm8018_get_revision (some { pm_chip_data := some (fresh_pmic 0x08F3) }) =
      some (((fresh_pmic 0x08F3).rev_registers &&& 0x000F : Nat) : Int) ∧
    ((fresh_pmic 0x08F3).rev_registers = revision_word 0x08 0xF0 →
      (fresh_pmic 0x08F3).rev_registers = 0xF008 ∧
      pm8018_get_version msm_hdr (some { pm_chip_data := some (fresh_pmic 0x08F3) }) =
        some (-(msm_hdr.ENODEV : Int))) :=
  C8_identify msm_hdr (fresh_pmic 0x08F3) (by decide)

theorem designated_get_self (tbl : List (Option String)) (i : Nat) (s : String) :
    (designated tbl i s)[i]? = some (some s) := by
  unfold designated
  by_cases h : i < tbl.length
  · rw [if_pos h, List.getElem?_set]
    simp [h]
  · rw [if_neg h, List.getElem?_append]
    have h1 : ¬ i < (tbl ++ List.replicate (i - tbl.length) none).length := by
      simp; omega
    rw [if_neg h1]
    have h2 : i - (tbl ++ List.replicate (i - tbl.length) none).length = 0 := by
      simp; omega
    rw [h2]
    rfl

theorem designated_get_keep (tbl : List (Option String)) (i j : Nat) (s : String)
    (v : Option String) (hne : j ≠ i) (hv : tbl[j]? = some v) :
    (designated tbl i s)[j]? = some v := by
  have hj : j < tbl.length := by
    by_contra hc
    rw [List.getElem?_eq_none (by omega)] at hv
    cases hv
  unfold designated
  by_cases h : i < tbl.length
  · rw [if_pos h, List.getElem?_set, if_neg (Ne.symm hne)]
    exact hv
  · rw [if_neg h, List.append_assoc, List.getElem?_append, if_pos hj]
    exact hv

/-- C9: the name lookup of `pm8018_probe` returns a name for every revision
index and never reads outside `pm8018_rev_names`: inside the table it returns
the table entry, outside it returns "unknown". When the four revision
enumerators are distinct, their entries are "test", "1.0", "1.1" and "2.0"; when
they are `0, 1, 2, 3` the table is exactly these four strings. -/
theorem C9_revision_name (K : Hdr) :
    (∀ revision : Int, ∃ name, probe_revision_name K revision = some name) ∧
    (∀ revision : Int, 0 ≤ revision → revision < (ARRAY_SIZE_pm8018_rev_names K : Int) →
      ∃ entry, (pm8018_rev_names K)[revision.toNat]? = some entry ∧
        probe_revision_name K revision = some entry) ∧
    (∀ revision : Int, ¬ (0 ≤ revision ∧ revision < (ARRAY_SIZE_pm8018_rev_names K : Int)) →
      probe_revision_name K revision = some (some "unknown")) ∧
    ((K.PM8XXX_REVISION_8018_TEST ≠ K.PM8XXX_REVISION_8018_1p0 ∧
      K.PM8XXX_REVISION_8018_TEST ≠ K.PM8XXX_REVISION_8018_1p1 ∧
      K.PM8XXX_REVISION_8018_TEST ≠ K.PM8XXX_REVISION_8018_2p0 ∧
      K.PM8XXX_REVISION_8018_1p0 ≠ K.PM8XXX_REVISION_8018_1p1 ∧
      K.PM8XXX_REVISION_8018_1p0 ≠ K.PM8XXX_REVISION_8018_2p0 ∧
      K.PM8XXX_REVISION_8018_1p1 ≠ K.PM8XXX_REVISION_8018_2p0) →
      probe_revision_name K K.PM8XXX_REVISION_8018_TEST = some (some "test") ∧
      probe_revision_name K K.PM8XXX_REVISION_8018_1p0 = some (some "1.0") ∧
      probe_revision_name K K.PM8XXX_REVISION_8018_1p1 = some (some "1.1") ∧
      probe_revision_name K K.PM8XXX_REVISION_8018_2p0 = some (some "2.0")) ∧
    ((K.PM8XXX_REVISION_8018_TEST = 0 ∧ K.PM8XXX_REVISION_8018_1p0 = 1 ∧
      K.PM8XXX_REVISION_8018_1p1 = 2 ∧ K.PM8XXX_REVISION_8018_2p0 = 3) →
      pm8018_rev_names K = [some "test", some "1.0", some "1.1", some "2.0"] ∧
      ∀ nibble : Nat, 4 ≤ nibble →
        probe_revision_name K nibble = some (some "unknown")) := by
  have hin : ∀ (i : Nat) (v : Option String), (pm8018_rev_names K)[i]? = some v →
      probe_revision_name K i = some v := by
    intro i v hv
    have hi : i < (pm8018_rev_names K).length := by
      by_contra hc
      rw [List.getElem?_eq_none (by omega)] at hv
      cases hv
    unfold probe_revision_name ARRAY_SIZE_pm8018_rev_names
    rw [if_pos ⟨by omega, by omega⟩]
    simpa using hv
  refine ⟨probe_revision_name_total K, ?_, ?_, ?_, ?_⟩
  · intro revision h0 h1
    have hlt : revision.toNat < (pm8018_rev_names K).length := by
      unfold ARRAY_SIZE_pm8018_rev_names at h1
      omega
    refine ⟨(pm8018_rev_names K)[revision.toNat], List.getElem?_eq_getElem hlt, ?_⟩
    unfold probe_revision_name
    rw [if_pos ⟨h0, h1⟩]
    exact List.getElem?_eq_getElem hlt
  · intro revision h
    unfold probe_revision_name
    rw [if_neg h]
  · rintro ⟨h01, h02, h03, h12, h13, h23⟩
    refine ⟨hin _ _ ?_, hin _ _ ?_, hin _ _ ?_, hin _ _ ?_⟩
    · exact designated_get_keep _ _ _ _ _ h03 (designated_get_keep _ _ _ _ _ h02
        (designated_get_keep _ _ _ _ _ h01 (designated_get_self _ _ _)))
    · exact designated_get_keep _ _ _ _ _ h13 (designated_get_keep _ _ _ _ _ h12
        (designated_get_self _ _ _))
    · exact designated_get_keep _ _ _ _ _ h23 (designated_get_self _ _ _)
    · exact designated_get_self _ _ _
  · rintro ⟨h0, h1, h2, h3⟩
    have htbl : pm8018_rev_names K = [some "test", some "1.0", some "1.1", some "2.0"] := by
      unfold pm8018_rev_names
      rw [h0, h1, h2, h3]
      rfl
    refine ⟨htbl, ?_⟩
    intro nibble hn
    unfold probe_revision_name ARRAY_SIZE_pm8018_rev_names
    rw [htbl, if_neg]
    simp
    omega

/-- Witness for C9: with the enumerators `0, 1, 2, 3` of `msm_hdr` the sixteen
nibble values give the four table strings and twelve times "unknown". -/
theorem C9_revision_name_witness :
    (List.range 16).map (fun nibble => probe_revision_name msm_hdr (nibble : Int)) =
      [some (some "test"), some (some "1.0"), some (some "1.1"), some (some "2.0")] ++
        List.replicate 12 (some (some "unknown")) ∧
    pm8018_rev_names msm_hdr = [some "test", some "1.0", some "1.1", some "2.0"] :=
  ⟨by decide, ((C9_revision_name msm_hdr).2.2.2.2 ⟨rfl, rfl, rfl, rfl⟩).1⟩

/-! ## The power key resources -/

/-- C5 as stated fails: with distinct release and press interrupts (50 and 51
in `msm_hdr`), the first power key resource is not the press interrupt and the
second is not the release interrupt. -/
theorem C5_press_first_counterexample :
    (resources_pwrkey msm_hdr).map (fun r => r.start) ≠
      [msm_hdr.PM8018_PWRKEY_PRESS_IRQ, msm_hdr.PM8018_PWRKEY_REL_IRQ] ∧
    (resources_pwrkey msm_hdr)[0]? ≠
      some (SINGLE_IRQ_RESOURCE none msm_hdr.PM8018_PWRKEY_PRESS_IRQ) := by
  decide

/-- C5 amended: the power key cell has exactly two resources, each a single
interrupt (`start = end`, kind interrupt); index 0 is the release interrupt
and index 1 is the press interrupt. -/
theorem C5_pwrkey_resources (K : Hdr) :
    (pwrkey_cell K).resources = resources_pwrkey K ∧
    (pwrkey_cell K).num_resources = 2 ∧
    (resources_pwrkey K).length = 2 ∧
    (∀ r ∈ resources_pwrkey K, r.start = r.end_ ∧ r.flags = .IORESOURCE_IRQ) ∧
    (resources_pwrkey K)[0]? = some (SINGLE_IRQ_RESOURCE none K.PM8018_PWRKEY_REL_IRQ) ∧
    (resources_pwrkey K)[1]? = some (SINGLE_IRQ_RESOURCE none K.PM8018_PWRKEY_PRESS_IRQ) ∧
    (resources_pwrkey K).map (fun r => r.start) =
      [K.PM8018_PWRKEY_REL_IRQ, K.PM8018_PWRKEY_PRESS_IRQ] := by
  refine ⟨rfl, rfl, rfl, ?_, rfl, rfl, rfl⟩
  intro r hr
  simp only [resources_pwrkey, List.mem_cons, List.mem_singleton, List.not_mem_nil,
    or_false] at hr
  rcases hr with h | h <;> subst h <;> exact ⟨rfl, rfl⟩

/-! ## Removal -/

/-- C10 fails on the code: with no driver data attached, or with driver data
whose chip data pointer is null, `pm8018_remove` reads `pmic->irq_chip` through
the null `pmic` (line 419) and has no result; it does not return 0. -/
theorem C10_remove_null_pmic :
    pm8018_remove { platform_data := none, drvdata := none } = none ∧
    pm8018_remove { platform_data := none, drvdata := some { pm_chip_data := none } } = none ∧
    pm8018_remove (device_of board_rtc_misc) = none := by
  decide

/-! ## Rollback -/

/-- C2: for every well-formed configuration and every answer of the kernel,
`pm8018_probe` returns, and whenever its trace holds a registration call that
failed (of any step `k`), then by the time it returns: `mfd_remove_devices` was
called exactly once; `pm8xxx_irq_exit` was called exactly once when a chip had
been created (the configuration asks for interrupts and `pm8xxx_irq_init`
returned a pointer that is neither an error nor null) and not at all
otherwise; the chip structure holds no chip pointer; the driver data pointer
is cleared; and no sub-device is left registered. -/
theorem C2_rollback (K : Hdr) (host : Host) (pdev : platform_device)
    (pdata : pm8018_platform_data) (hpd : pdev.platform_data = some pdata)
    (hwf : WellFormed pdata) :
    ∃ r, pm8018_probe K host pdev = some r ∧
      ∀ k cells n_devs irq_base ret,
        Event.mfd_add_devices k cells n_devs irq_base ret ∈ r.trace → ret ≠ 0 →
        r.rc = ret ∧
        r.trace.count .mfd_remove_devices = 1 ∧
        r.trace.countP Event.isIrqExit = (if chip_of K host pdata ≠ 0 then 1 else 0) ∧
        (chip_of K host pdata ≠ 0 → Event.pm8xxx_irq_exit (chip_of K host pdata) ∈ r.trace) ∧
        (∃ pmic, r.pmic = some pmic ∧ pmic.irq_chip = 0) ∧
        r.pdev.drvdata = none ∧
        registered r.trace = [] := by
  by_cases hr : Reaches host
  · obtain ⟨ret, s, pre, post, r, _, hout, hp, hrc, hpm, htr, hp1, hp2, _, hq1, _, hfail, _⟩ :=
      probe_main K host pdev pdata hpd hr hwf
    refine ⟨r, hp, ?_⟩
    intro k cells n_devs irq_base code hmem hne
    have hcalls : addCalls r.trace = addCalls s.trace := by
      rw [htr, addCalls_append, addCalls_append, hp1, hq1]
      simp
    have hc : (⟨k, cells, n_devs, irq_base, code⟩ : AddCall) ∈ addCalls s.trace := by
      rw [← hcalls]
      exact (mem_addCalls _ _ _ _ _ _).mp hmem
    obtain ⟨hsf, hcall⟩ := failed_call_cases K host pdata _ ret s _ hout hc hne
    have hcode : code = host.mfd_add_devices k := congrArg AddCall.ret hcall
    have hret : ret = code := by rw [hcode]; exact hsf.ret
    obtain ⟨hpost, _, hdrv⟩ := hfail (by rw [hret]; exact hne)
    have hdown : teardowns r.trace = bailDown K host pdata ++ [.mfd_remove_devices] := by
      rw [htr, teardowns_append, teardowns_append, hp2, hsf.down, hpost]
      rfl
    obtain ⟨hb1, hb2⟩ := bailDown_counts K host pdata
    refine ⟨hrc.trans hret, ?_, ?_, ?_, ⟨s.pmic, hpm, hsf.irq_chip⟩, hdrv, ?_⟩
    · rw [count_remove_teardowns, hdown, List.count_append, hb1]
      rfl
    · rw [countP_exit_teardowns, hdown, List.countP_append, hb2]
      rfl
    · intro hchip
      have : Event.pm8xxx_irq_exit (chip_of K host pdata) ∈ teardowns r.trace := by
        rw [hdown]
        simp [bailDown, hchip]
      exact (List.mem_filter.mp this).1
    · rw [htr, hpost]
      simp [registered, List.foldl_append, ledger_step]
  · obtain ⟨r, hp, hcalls, _⟩ := probe_early K host pdev pdata hpd hr
    refine ⟨r, hp, ?_⟩
    intro k cells n_devs irq_base code hmem _
    have := (mem_addCalls _ _ _ _ _ _).mp hmem
    rw [hcalls] at this
    cases this

/-- Witness for C2 (scenario C): on a board with interrupts the `rtc`
registration fails with `-5`. The registration calls are gpio (success) and rtc
(failure); probe returns `-5` after one removal and one chip release, with no
chip pointer held and nothing left registered. -/
theorem C2_rollback_witness :
    (pm8018_probe msm_hdr (host_failing .rtc) (device_of board_regulators)).map
        (fun r => (r.rc, (addCalls r.trace).map (fun c => (c.site, c.ret)),
          r.trace.count .mfd_remove_devices, r.trace.countP Event.isIrqExit,
          r.pmic.map (fun p => p.irq_chip), registered r.trace)) =
      some (-5, [(.gpio, 0), (.rtc, -5)], 1, 1, some 0, []) ∧
    ∃ r, pm8018_probe msm_hdr (host_failing .rtc) (device_of board_regulators) = some r ∧
      ∀ k cells n_devs irq_base ret,
        Event.mfd_add_devices k cells n_devs irq_base ret ∈ r.trace → ret ≠ 0 →
        r.rc = ret ∧
        r.trace.count .mfd_remove_devices = 1 ∧
        r.trace.countP Event.isIrqExit =
          (if chip_of msm_hdr (host_failing .rtc) board_regulators ≠ 0 then 1 else 0) ∧
        (chip_of msm_hdr (host_failing .rtc) board_regulators ≠ 0 →
          Event.pm8xxx_irq_exit (chip_of msm_hdr (host_failing .rtc) board_regulators)
            ∈ r.trace) ∧
        (∃ pmic, r.pmic = some pmic ∧ pmic.irq_chip = 0) ∧
        r.pdev.drvdata = none ∧
        registered r.trace = [] :=
  ⟨rfl, C2_rollback msm_hdr (host_failing .rtc) (device_of board_regulators)
    board_regulators rfl (by decide)⟩

/-- C6 fails on the code for the bring-up path. On a board with interrupts the
`rtc` registration fails after the gpio cell was registered: the label `bail`
of `pm8018_add_subdevices` releases the chip first, and only then does the
label `err` of `pm8018_probe` remove the sub-devices, so the gpio cell is still
registered when the chip is released. On the removal path of the same board the
order is the other way round: removal first, then the chip release. -/
theorem C6_release_before_removal :
    (pm8018_probe msm_hdr (host_failing .rtc) (device_of board_regulators)).map
        (fun r => (teardowns r.trace,
          (registered (r.trace.takeWhile (fun e => !e.isIrqExit))).map (fun c => c.name))) =
      some ([.pm8xxx_irq_exit 4096, .mfd_remove_devices], [some "pm8xxx-gpio"]) ∧
    ((pm8018_probe msm_hdr host_ok (device_of board_regulators)).bind
        (fun r => pm8018_remove r.pdev)).map (fun r => teardowns r.trace) =
      some [.mfd_remove_devices, .pm8xxx_irq_exit 4096] :=
  ⟨rfl, rfl⟩

/-! ## Registration order and fail-fast -/

/-- C1 as stated fails: on a board with regulators, interrupt initialisation
succeeds and every registration call that is made succeeds, but the regulator
cells cannot be allocated; the registration calls are gpio, rtc, debug, without
the regulators the configuration holds, and the call returns `-ENOMEM`. -/
theorem C1_alloc_counterexample :
    irq_failed msm_hdr host_nomem board_regulators = false ∧
    (pm8018_add_subdevices msm_hdr host_nomem board_regulators (fresh_pmic 0)).map
        (fun r => (r.1, (addCalls r.2.trace).map (fun c => (c.site, c.ret)))) =
      some (-12, [(.gpio, 0), (.rtc, 0), (.debug, 0)]) ∧
    planned board_regulators = [.gpio, .rtc, .debug, .regulators] :=
  ⟨rfl, rfl, rfl⟩

/-- C1 amended: for every well-formed configuration, when interrupt
initialisation succeeds, the regulator cells can be allocated (where the
configuration has regulators) and every registration call made succeeds,
`pm8018_add_subdevices` returns 0 and its registration calls are exactly the
steps gpio, mpp, rtc, power key, misc, debug, regulators restricted to those
whose guard holds, in that order, each with the cells of its step. The debug
step is always among them; a configuration with only rtc and misc has exactly
the three calls rtc, misc, debug. -/
theorem C1_registration_order (K : Hdr) (host : Host) (p : pm8018_platform_data)
    (rev : Nat) (hwf : WellFormed p) (hirq : irq_failed K host p = false)
    (halloc : present p .regulators = true → host.kzalloc_regulators = true) :
    ∃ ret s, pm8018_add_subdevices K host p (fresh_pmic rev) = some (ret, s) ∧
      ((∀ c ∈ addCalls s.trace, c.ret = 0) →
        ret = 0 ∧
        (addCalls s.trace).map (fun c => c.site) = planned p ∧
        addCalls s.trace = (planned p).map (stepCall K p 0)) ∧
      Step.debug ∈ planned p ∧
      (p.gpio_pdata = none → p.mpp_pdata = none → p.rtc_pdata.isSome = true →
        p.pwrkey_pdata = none → p.misc_pdata.isSome = true →
        present p .regulators = false → planned p = [.rtc, .misc, .debug]) := by
  obtain ⟨ret, s, hadd, hout⟩ := add_subdevices_outcome K host p (fresh_pmic rev) hwf rfl
  refine ⟨ret, s, hadd, ?_, ?_, ?_⟩
  · intro hall
    rcases hout.cases with h | h | ⟨k, h⟩ | h
    · exact ⟨h.ret, by rw [h.calls, callsOf_sites]; rfl, by rw [h.calls]; rfl⟩
    · rw [h.irq] at hirq
      cases hirq
    · have hmem : stepCall K p (host.mfd_add_devices k) k ∈ addCalls s.trace := by
        rw [h.calls]
        simp
      exact absurd (hall _ hmem) h.failed
    · have hk := h.alloc
      rw [halloc h.guard] at hk
      cases hk
  · simp [planned, steps, List.mem_filter, present]
  · intro h1 h2 h3 h4 h5 h6
    have h7 : present p .gpio = false := by simp [present, h1]
    have h8 : present p .mpp = false := by simp [present, h2]
    have h9 : present p .pwrkey = false := by simp [present, h4]
    have h10 : present p .rtc = true := h3
    have h11 : present p .misc = true := h5
    have h12 : present p .debug = true := rfl
    simp [planned, steps, List.filter, h6, h7, h8, h9, h10, h11, h12]

/-- Witness for C1 (scenario B): only rtc and misc are configured; the calls
are rtc, misc, debug, three in all. -/
theorem C1_registration_order_witness :
    (pm8018_add_subdevices msm_hdr host_ok board_rtc_misc (fresh_pmic 0)).map
        (fun r => (r.1, (addCalls r.2.trace).map (fun c => (c.site, c.ret)))) =
      some (0, [(.rtc, 0), (.misc, 0), (.debug, 0)]) ∧
    ∃ ret s, pm8018_add_subdevices msm_hdr host_ok board_rtc_misc (fresh_pmic 0) =
        some (ret, s) ∧
      ((∀ c ∈ addCalls s.trace, c.ret = 0) →
        ret = 0 ∧
        (addCalls s.trace).map (fun c => c.site) = planned board_rtc_misc ∧
        addCalls s.trace = (planned board_rtc_misc).map (stepCall msm_hdr board_rtc_misc 0)) ∧
      Step.debug ∈ planned board_rtc_misc ∧
      (board_rtc_misc.gpio_pdata = none → board_rtc_misc.mpp_pdata = none →
        board_rtc_misc.rtc_pdata.isSome = true →
        board_rtc_misc.pwrkey_pdata = none → board_rtc_misc.misc_pdata.isSome = true →
        present board_rtc_misc .regulators = false →
        planned board_rtc_misc = [.rtc, .misc, .debug]) :=
  ⟨rfl, C1_registration_order msm_hdr host_ok board_rtc_misc 0 (by decide) rfl
    (by decide)⟩

/-- C3 as stated fails in its last part: the value returned does not identify
the failed step. When the gpio call fails with `-5` and when the rtc call fails
with `-5`, `pm8018_add_subdevices` and `pm8018_probe` return the same `-5`. -/
theorem C3_same_code_counterexample :
    (pm8018_probe msm_hdr (host_failing .gpio) (device_of board_regulators)).map
        (fun r => (r.rc, (addCalls r.trace).map (fun c => (c.site, c.ret)))) =
      some (-5, [(.gpio, -5)]) ∧
    (pm8018_probe msm_hdr (host_failing .rtc) (device_of board_regulators)).map
        (fun r => (r.rc, (addCalls r.trace).map (fun c => (c.site, c.ret)))) =
      some (-5, [(.gpio, 0), (.rtc, -5)]) ∧
    (pm8018_add_subdevices msm_hdr (host_failing .gpio) board_regulators (fresh_pmic 0)).map
        (fun r => r.1) = some (-5) ∧
    (pm8018_add_subdevices msm_hdr (host_failing .rtc) board_regulators (fresh_pmic 0)).map
        (fun r => r.1) = some (-5) :=
  ⟨rfl, rfl, rfl, rfl⟩

/-- C3 amended: bring-up is fail-fast. For every well-formed configuration for
which probe reaches `pm8018_add_subdevices`: if interrupt initialisation fails,
no registration call is made and the value returned is the non-zero error
number the returned pointer carries; if a registration call fails, it is the
last registration call, the calls before it are the successful calls of the
earlier steps whose guard holds, and the value returned is the non-zero code
that call returned. `pm8018_probe` returns the value `pm8018_add_subdevices`
returns. The failed step is named by the error line the driver logs, not by the
value returned. -/
theorem C3_fail_fast (K : Hdr) (host : Host) (pdev : platform_device)
    (pdata : pm8018_platform_data) (hpd : pdev.platform_data = some pdata)
    (hwf : WellFormed pdata) (hreach : Reaches host) :
    ∃ ret s r,
      pm8018_add_subdevices K host pdata
        (fresh_pmic (revision_word (host.msm_ssbi_read REG_HWREV).2
          (host.msm_ssbi_read REG_HWREV_2).2)) = some (ret, s) ∧
      pm8018_probe K host pdev = some r ∧ r.rc = ret ∧
      addCalls r.trace = addCalls s.trace ∧
      (irq_failed K host pdata = true →
        addCalls r.trace = [] ∧ ret = PTR_ERR host.pm8xxx_irq_init ∧ ret ≠ 0 ∧
        Event.pr_err "Failed to init interrupts ret=%ld\n" [.int ret] ∈ r.trace) ∧
      (∀ k cells n_devs irq_base code,
        Event.mfd_add_devices k cells n_devs irq_base code ∈ r.trace → code ≠ 0 →
        addCalls r.trace =
          callsOf K pdata (stepsBefore k) ++ [⟨k, cells, n_devs, irq_base, code⟩] ∧
        (addCalls r.trace).map (fun c => c.site) =
          (stepsBefore k).filter (present pdata) ++ [k] ∧
        ret = code ∧ code = host.mfd_add_devices k ∧
        Event.pr_err (fail_fmt k) [.int code] ∈ r.trace) := by
  obtain ⟨ret, s, pre, post, r, hadd, hout, hp, hrc, _, htr, hp1, _, _, hq1, _, _, _⟩ :=
    probe_main K host pdev pdata hpd hreach hwf
  have hcalls : addCalls r.trace = addCalls s.trace := by
    rw [htr, addCalls_append, addCalls_append, hp1, hq1]
    simp
  have hsub : ∀ e, e ∈ s.trace → e ∈ r.trace := by
    intro e he
    rw [htr]
    exact List.mem_append_left _ (List.mem_append_right _ he)
  refine ⟨ret, s, r, hadd, hp, hrc, hcalls, ?_, ?_⟩
  · intro hirq
    rcases hout.cases with h | h | ⟨k, h⟩ | h
    · rw [h.irq] at hirq; cases hirq
    · have hneg : ret ≠ 0 := by
        have hi := h.irq
        simp only [irq_failed, Bool.and_eq_true, IS_ERR, decide_eq_true_eq] at hi
        have := h.ret
        unfold PTR_ERR at this
        omega
      refine ⟨by rw [hcalls, h.calls], h.ret, hneg, ?_⟩
      rw [h.ret]
      exact hsub _ h.log
    · rw [h.irq] at hirq; cases hirq
    · rw [h.irq] at hirq; cases hirq
  · intro k cells n_devs irq_base code hmem hne
    have hc : (⟨k, cells, n_devs, irq_base, code⟩ : AddCall) ∈ addCalls s.trace := by
      rw [← hcalls]
      exact (mem_addCalls _ _ _ _ _ _).mp hmem
    obtain ⟨hsf, hcall⟩ := failed_call_cases K host pdata _ ret s _ hout hc hne
    have hcode : code = host.mfd_add_devices k := congrArg AddCall.ret hcall
    have hsf' : StepFailed K host pdata k ret s := hsf
    refine ⟨?_, ?_, by rw [hcode]; exact hsf'.ret, hcode, ?_⟩
    · rw [hcalls, hsf'.calls, hcall]
    · rw [hcalls, hsf'.calls, List.map_append, callsOf_sites]
      rfl
    · rw [hcode]
      exact hsub _ hsf'.log

/-- Witness for C3: the rtc call fails with `-5` on a board with interrupts,
gpio, rtc and regulators; the calls are gpio and rtc, and `-5` is returned. -/
theorem C3_fail_fast_witness :
    (pm8018_probe msm_hdr (host_failing .rtc) (device_of board_regulators)).map
        (fun r => (r.rc, (addCalls r.trace).map (fun c => (c.site, c.ret)))) =
      some (-5, [(.gpio, 0), (.rtc, -5)]) ∧
    ∃ ret s r,
      pm8018_add_subdevices msm_hdr (host_failing .rtc) board_regulators
        (fresh_pmic (revision_word ((host_failing .rtc).msm_ssbi_read REG_HWREV).2
          ((host_failing .rtc).msm_ssbi_read REG_HWREV_2).2)) = some (ret, s) ∧
      pm8018_probe msm_hdr (host_failing .rtc) (device_of board_regulators) = some r ∧
      r.rc = ret ∧
      addCalls r.trace = addCalls s.trace ∧
      (irq_failed msm_hdr (host_failing .rtc) board_regulators = true →
        addCalls r.trace = [] ∧ ret = PTR_ERR (host_failing .rtc).pm8xxx_irq_init ∧ ret ≠ 0 ∧
        Event.pr_err "Failed to init interrupts ret=%ld\n" [.int ret] ∈ r.trace) ∧
      (∀ k cells n_devs irq_base code,
        Event.mfd_add_devices k cells n_devs irq_base code ∈ r.trace → code ≠ 0 →
        addCalls r.trace =
          callsOf msm_hdr board_regulators (stepsBefore k) ++
            [⟨k, cells, n_devs, irq_base, code⟩] ∧
        (addCalls r.trace).map (fun c => c.site) =
          (stepsBefore k).filter (present board_regulators) ++ [k] ∧
        ret = code ∧ code = (host_failing .rtc).mfd_add_devices k ∧
        Event.pr_err (fail_fmt k) [.int code] ∈ r.trace) :=
  ⟨rfl, C3_fail_fast msm_hdr (host_failing .rtc) (device_of board_regulators)
    board_regulators rfl (by decide) (by decide)⟩

/-! ## The regulator batch -/

theorem regulator_cells_length (K : Hdr) (rs : List pm8018_regulator_platform_data) :
    ∀ i, (regulator_cells K i rs).length = rs.length := by
  induction rs with
  | nil => intro i; rfl
  | cons r rs ih => intro i; simp [regulator_cells, ih]

theorem regulator_cells_get (K : Hdr) (rs : List pm8018_regulator_platform_data) :
    ∀ i j, (regulator_cells K i rs)[j]? =
      rs[j]?.map (fun r => regulator_cell K (i + j) r mfd_cell.zero) := by
  induction rs with
  | nil => intro i j; simp [regulator_cells]
  | cons r rs ih =>
    intro i j
    cases j with
    | zero => simp [regulator_cells]
    | succ j =>
      simp only [regulator_cells, List.getElem?_cons_succ]
      rw [ih (i + 1) j]
      have : i + 1 + j = i + (j + 1) := by omega
      rw [this]

theorem filter_callsOf_before (K : Hdr) (p : pm8018_platform_data) :
    (callsOf K p (stepsBefore .regulators)).filter
      (fun c => decide (c.site = .regulators)) = [] := by
  rw [List.filter_eq_nil_iff]
  intro c hc
  have hs := (mem_callsOf K p _ c hc).2.1
  intro hd
  have heq : c.site = .regulators := by simpa using hd
  rw [heq] at hs
  simp [stepsBefore] at hs

/-- C4 as stated fails: on the board with three regulators interrupt
initialisation succeeds and the registration calls of all earlier steps (gpio,
rtc, debug) succeed, but the regulator cells cannot be allocated; the call
returns `-ENOMEM` and makes no registration call at the regulator step, where
the claim asks for exactly one. -/
theorem C4_no_batch_counterexample :
    irq_failed msm_hdr host_nomem board_regulators = false ∧
    board_regulators.num_regulators = 3 ∧
    board_regulators.regulator_pdatas.map (fun l => l.length) = some 3 ∧
    (pm8018_add_subdevices msm_hdr host_nomem board_regulators (fresh_pmic 0)).map
        (fun r => (r.1, (addCalls r.2.trace).map (fun c => (c.site, c.ret)),
          ((addCalls r.2.trace).filter (fun c => decide (c.site = .regulators))).length)) =
      some (-12, [(.gpio, 0), (.rtc, 0), (.debug, 0)], 0) :=
  ⟨rfl, rfl, rfl, rfl⟩

/-- C4 amended: for a configuration whose regulator array has `n > 0` entries and
`num_regulators = n`, when interrupt initialisation does not fail, the
registration calls of the earlier steps succeed and the cells are allocated,
`pm8018_add_subdevices` makes exactly one registration call at the regulator
step; it carries `n` cells and the device count `n`, and for every `i < n` cell
`i` has the id of regulator entry `i` and points at regulator entry `i` as its
platform data. -/
theorem C4_regulator_batch (K : Hdr) (host : Host) (p : pm8018_platform_data) (rev : Nat)
    (regs : List pm8018_regulator_platform_data) (n : Nat) (hn : 0 < n)
    (hnum : p.num_regulators = (n : Int)) (hregs : p.regulator_pdatas = some regs)
    (hlen : regs.length = n) (hirq : irq_failed K host p = false)
    (hok : ∀ k ∈ stepsBefore .regulators, present p k = true → host.mfd_add_devices k = 0)
    (halloc : host.kzalloc_regulators = true) :
    ∃ ret s cells, pm8018_add_subdevices K host p (fresh_pmic rev) = some (ret, s) ∧
      (addCalls s.trace).filter (fun c => decide (c.site = .regulators)) =
        [⟨.regulators, cells, (n : Int), irq_base_of p, host.mfd_add_devices .regulators⟩] ∧
      cells.length = n ∧
      ∀ i (hi : i < regs.length), cells[i]? = some
        { name := some K.PM8018_REGULATOR_DEV_NAME
          id := regs[i].id
          resources := []
          num_resources := 0
          platform_data := .regulator_pdatas i
          data_size := K.sizeof_pm8018_regulator_platform_data } := by
  have hwf : WellFormed p := by
    intro r hr _
    rw [hregs] at hr
    cases hr
    rw [hnum, hlen]
  have hp : present p .regulators = true := by
    simp [present, hnum, hregs, hn]
  have hcells : stepCells K p .regulators = regulator_cells K 0 regs := by
    simp [stepCells, hregs, hnum, ← hlen]
  have hcall : ∀ r, stepCall K p r .regulators =
      ⟨.regulators, regulator_cells K 0 regs, (n : Int), irq_base_of p, r⟩ := by
    intro r
    simp [stepCall, hcells, stepCount, hnum]
  obtain ⟨ret, s, hadd, hout⟩ := add_subdevices_outcome K host p (fresh_pmic rev) hwf rfl
  refine ⟨ret, s, regulator_cells K 0 regs, hadd, ?_, ?_, ?_⟩
  · rcases hout.cases with h | h | ⟨k, h⟩ | h
    · have hsteps : steps = stepsBefore .regulators ++ [.regulators] := rfl
      rw [h.calls, hsteps, callsOf_snoc, List.filter_append, filter_callsOf_before, hp,
        hcall, h.ok .regulators hp]
      simp
    · rw [h.irq] at hirq
      cases hirq
    · by_cases hk : k = .regulators
      · subst hk
        rw [h.calls, List.filter_append, filter_callsOf_before, hcall]
        simp
      · have hmem : k ∈ stepsBefore .regulators := by
          cases k <;> simp_all [stepsBefore]
        exact absurd (hok k hmem h.guard) h.failed
    · have hk := h.alloc
      rw [halloc] at hk
      cases hk
  · rw [regulator_cells_length, hlen]
  · intro i hi
    rw [regulator_cells_get, List.getElem?_eq_getElem hi]
    simp [regulator_cell, mfd_cell.zero]

/-- Witness for C4 (scenario D): three regulators with the ids 7, 3 and 9; one
call at the regulator step with three cells that carry these ids in order and
point at the entries 0, 1 and 2. -/
theorem C4_regulator_batch_witness :
    (pm8018_add_subdevices msm_hdr host_ok board_regulators (fresh_pmic 0)).map
        (fun r => ((addCalls r.2.trace).filter (fun c => decide (c.site = .regulators))).map
          (fun c => (c.n_devs, c.cells.map (fun cell => (cell.id, cell.platform_data))))) =
      some [(3, [(7, .regulator_pdatas 0), (3, .regulator_pdatas 1),
        (9, .regulator_pdatas 2)])] ∧
    ∃ ret s cells,
      pm8018_add_subdevices msm_hdr host_ok board_regulators (fresh_pmic 0) = some (ret, s) ∧
      (addCalls s.trace).filter (fun c => decide (c.site = .regulators)) =
        [⟨.regulators, cells, ((3 : Nat) : Int), irq_base_of board_regulators,
          host_ok.mfd_add_devices .regulators⟩] ∧
      cells.length = 3 ∧
      ∀ i (hi : i < [(⟨7, 10⟩ : pm8018_regulator_platform_data), ⟨3, 20⟩, ⟨9, 30⟩].length),
        cells[i]? = some
          { name := some msm_hdr.PM8018_REGULATOR_DEV_NAME
            id := ([(⟨7, 10⟩ : pm8018_regulator_platform_data), ⟨3, 20⟩, ⟨9, 30⟩][i]).id
            resources := []
            num_resources := 0
            platform_data := .regulator_pdatas i
            data_size := msm_hdr.sizeof_pm8018_regulator_platform_data } :=
  ⟨rfl, C4_regulator_batch msm_hdr host_ok board_regulators 0
    [⟨7, 10⟩, ⟨3, 20⟩, ⟨9, 30⟩] 3 (by decide) rfl rfl rfl rfl (by intro k _ _; rfl) rfl⟩

/-! ## Further properties -/

/-- Removal of a device whose chip data is attached: `pm8018_remove` returns 0,
removes the sub-devices first, then releases the chip if the chip structure
holds one, and clears the driver data pointer. -/
theorem remove_with_chip_data (pdev : platform_device) (dd : pm8xxx_drvdata)
    (pmic : pm8018) (hdd : pdev.drvdata = some dd) (hpm : dd.pm_chip_data = some pmic) :
    ∃ r, pm8018_remove pdev = some r ∧ r.rc = 0 ∧ r.pdev.drvdata = none ∧
      teardowns r.trace = Event.mfd_remove_devices ::
        (if pmic.irq_chip ≠ 0 then [Event.pm8xxx_irq_exit pmic.irq_chip] else []) := by
  unfold pm8018_remove
  simp only [hdd, hpm]
  by_cases hc : pmic.irq_chip = 0
  · exact ⟨_, rfl, rfl, rfl, by simp [hc, teardowns, Event.isTeardown]⟩
  · exact ⟨_, rfl, rfl, rfl, by simp [hc, teardowns, Event.isTeardown]⟩

/-- The removal of a board brought up by `host_ok`: sub-devices first, then the
chip at 4096. -/
theorem remove_with_chip_data_witness :
    ∃ r, pm8018_remove
        { platform_data := some board_regulators,
          drvdata := some { pm_chip_data := some { fresh_pmic 0 with irq_chip := 4096 } } } =
        some r ∧ r.rc = 0 ∧ r.pdev.drvdata = none ∧
      teardowns r.trace = Event.mfd_remove_devices ::
        (if ({ fresh_pmic 0 with irq_chip := 4096 } : pm8018).irq_chip ≠ 0 then
          [Event.pm8xxx_irq_exit ({ fresh_pmic 0 with irq_chip := 4096 } : pm8018).irq_chip]
        else []) :=
  remove_with_chip_data _ _ _ rfl rfl

/-- When the regulator cells cannot be allocated (and the earlier steps
succeeded), `pm8018_add_subdevices` returns `-ENOMEM` without a registration
call at the regulator step, and the chip pointer is cleared. -/
theorem alloc_failure_aborts (K : Hdr) (host : Host) (p : pm8018_platform_data) (rev : Nat)
    (hwf : WellFormed p) (hirq : irq_failed K host p = false)
    (hok : ∀ k ∈ stepsBefore .regulators, present p k = true → host.mfd_add_devices k = 0)
    (hp : present p .regulators = true) (hk : host.kzalloc_regulators = false) :
    ∃ s, pm8018_add_subdevices K host p (fresh_pmic rev) = some (-(K.ENOMEM : Int), s) ∧
      addCalls s.trace = callsOf K p (stepsBefore .regulators) ∧
      (∀ c ∈ addCalls s.trace, c.site ≠ .regulators ∧ c.ret = 0) ∧
      s.pmic.irq_chip = 0 := by
  obtain ⟨ret, s, hadd, hout⟩ := add_subdevices_outcome K host p (fresh_pmic rev) hwf rfl
  rcases hout.cases with h | h | ⟨k, h⟩ | h
  · have := h.alloc hp
    rw [hk] at this
    cases this
  · rw [h.irq] at hirq
    cases hirq
  · by_cases hkr : k = .regulators
    · have := h.alloc hkr
      rw [hk] at this
      cases this
    · have hmem : k ∈ stepsBefore .regulators := by
        cases k <;> simp_all [stepsBefore]
      exact absurd (hok k hmem h.guard) h.failed
  · refine ⟨s, by rw [hadd, h.ret], h.calls, ?_, h.irq_chip⟩
    intro c hc
    rw [h.calls] at hc
    obtain ⟨h1, h2, _⟩ := mem_callsOf K p _ c hc
    refine ⟨?_, h1⟩
    intro heq
    rw [heq] at h2
    simp [stepsBefore] at h2

/-- The allocation fails on the board with three regulators: `-12` is returned
after the calls gpio, rtc, debug. -/
theorem alloc_failure_aborts_witness :
    ∃ s, pm8018_add_subdevices msm_hdr host_nomem board_regulators (fresh_pmic 0) =
        some (-(msm_hdr.ENOMEM : Int), s) ∧
      addCalls s.trace = callsOf msm_hdr board_regulators (stepsBefore .regulators) ∧
      (∀ c ∈ addCalls s.trace, c.site ≠ .regulators ∧ c.ret = 0) ∧
      s.pmic.irq_chip = 0 :=
  alloc_failure_aborts msm_hdr host_nomem board_regulators 0 (by decide) rfl
    (by intro k _ _; rfl) rfl rfl

end PM8018
